import Mathlib

/-!
# Weather dashboard: forecast normalisation, condition lookup and helpers

A shallow embedding of `src/components/WeatherApp.jsx` and
`src/utils/weatherCodes.js`.

JavaScript values are embedded as the type `JSVal` (the values `JSON.parse`
can produce, plus `undefined`).  Code that can throw returns `Except Thrown _`;
the React state bundle is the record `AppState`, and the asynchronous handlers
are state-passing functions whose network answers are explicit arguments.
-/

namespace WeatherApp

/-! ## JavaScript values -/

/-- A JavaScript number.  Finite doubles are embedded in `ℚ` (every finite
double is a rational); `-0` is identified with `0`, which no operation used by
this program distinguishes (`===`, truthiness, `Math.round` followed by
`ToString`). -/
inductive JSNum where
  | nan
  | posInf
  | negInf
  | fin (q : ℚ)
  deriving DecidableEq

/-- The values the program handles: what `JSON.parse` yields, and `undefined`.
An object is its list of own properties (the first binding of a key is the one
in force). A `Char` of a string stands for one UTF-16 code unit. -/
inductive JSVal where
  | undefined
  | null
  | bool (b : Bool)
  | num (n : JSNum)
  | str (s : String)
  | arr (items : List JSVal)
  | obj (fields : List (String × JSVal))

/-- What a `throw` (or a rejected promise) carries.  `error` is an `Error` with
a message chosen by the program or the environment, `typeError` and
`rangeError` are raised by the engine at the named expression, `other` is a
thrown value that is not an `Error`. -/
inductive Thrown where
  | error (message : String)
  | typeError (site : String)
  | rangeError (site : String)
  | other
  deriving DecidableEq, Repr

/-- The parts of the JavaScript engine the source relies on and that are not
modelled bit for bit: `Number::toString` on fractions and from `10^21` on,
`new Date(v)` validity, the three `Intl.DateTimeFormat` instances of lines
13-22, and the message text of engine-raised errors. -/
structure Engine where
  numberText : ℚ → String
  dateValid : JSVal → Bool
  dayFormat : JSVal → String
  longDayFormat : JSVal → String
  timeFormat : JSVal → String
  engineMessage : Thrown → String

/-- ToBoolean. -/
def truthy : JSVal → Bool
  | .undefined => false
  | .null => false
  | .bool b => b
  | .num .nan => false
  | .num (.fin q) => decide (q ≠ 0)
  | .num _ => true
  | .str s => decide (s ≠ "")
  | .arr _ => true
  | .obj _ => true

/-- The test `v == null` / the left side of `??`: `undefined` or `null`. -/
def nullish : JSVal → Bool
  | .undefined => true
  | .null => true
  | _ => false

/-- The operator `a ?? b`. -/
def coalesce (a b : JSVal) : JSVal :=
  if nullish a then b else a

/-- Strict equality `a === b` between a decoded value and another decoded
value: primitives compare by value (`NaN` equals nothing), and two decoded
arrays or objects are distinct references, so never equal. -/
def strictEq : JSVal → JSVal → Bool
  | .undefined, .undefined => true
  | .null, .null => true
  | .bool a, .bool b => a == b
  | .num .nan, .num _ => false
  | .num _, .num .nan => false
  | .num a, .num b => decide (a = b)
  | .str a, .str b => a == b
  | _, _ => false

/-- Own-property lookup in a property list. -/
def lookupKey (k : String) : List (String × JSVal) → JSVal
  | [] => .undefined
  | (k', v) :: rest => if k' = k then v else lookupKey k rest

/-- The value of `v.k` for a `v` that is neither `undefined` nor `null`, `k`
one of the data keys the program reads (none of them is an inherited property
of an array, a string, a number or a boolean). -/
def readField (v : JSVal) (k : String) : JSVal :=
  match v with
  | .obj fields => lookupKey k fields
  | _ => .undefined

/-- The expression `v.k`: a `TypeError` on `undefined` and `null`. -/
def getField (site : String) (v : JSVal) (k : String) : Except Thrown JSVal :=
  if nullish v then .error (.typeError site) else .ok (readField v k)

/-- The value of `v[i]` for a `v` that is neither `undefined` nor `null`. -/
def readIndex (v : JSVal) (i : Nat) : JSVal :=
  match v with
  | .arr items => items.getD i .undefined
  | .obj fields => lookupKey (toString i) fields
  | .str s => match s.data.get? i with
    | some c => .str (String.singleton c)
    | none => .undefined
  | _ => .undefined

/-- The expression `v[i]`: a `TypeError` on `undefined` and `null`. -/
def getIndex (site : String) (v : JSVal) (i : Nat) : Except Thrown JSVal :=
  if nullish v then .error (.typeError site) else .ok (readIndex v i)

/-- The receiver of an array method call `v.map(..)`, `v.findIndex(..)`:
only an array has the method; anything else raises a `TypeError`. -/
def asArray (site : String) (v : JSVal) : Except Thrown (List JSVal) :=
  match v with
  | .arr items => .ok items
  | _ => .error (.typeError site)

/-- The function `Math.round`: the nearest integer, a tie going towards `+∞`. -/
def mathRound : JSNum → JSNum
  | .fin q => .fin (Rat.floor (q + 1 / 2) : ℤ)
  | n => n

/-- The double nearest to a natural number below `2^70`, a tie going to the
even significand (a double from `2^53` on has 53 significant bits). -/
def roundToDouble (m : Nat) : Nat :=
  if m < 2 ^ 53 then m
  else
    match (List.range 18).find? (fun shift => decide (m < 2 ^ (53 + shift))) with
    | none => m
    | some shift =>
      let unit := 2 ^ shift
      let q := m / unit
      let r := m % unit
      if 2 * r > unit ∨ (2 * r = unit ∧ q % 2 = 1) then (q + 1) * unit else q * unit

/-- The integer of `len` digits with `k` significant digits (the rest zeros)
that `Number::toString` would print for the double `x`, if one with `k`
digits converts back to `x`: of the two neighbours of `x` the one that does, the
closer one when both do, the one with the even last digit at equal distance. -/
def digitsAt (x len k : Nat) : Option Nat :=
  let unit := 10 ^ (len - k)
  let lo := x / unit * unit
  let hi := lo + unit
  let okLo := decide (roundToDouble lo = x)
  let okHi := decide (roundToDouble hi = x ∧ hi < 10 ^ len)
  if okLo && okHi then
    if x - lo < hi - x then some lo
    else if hi - x < x - lo then some hi
    else if (lo / unit) % 2 = 0 then some lo else some hi
  else if okLo then some lo
  else if okHi then some hi
  else none

/-- The text of `Number::toString` for an integral double `x` with
`2^53 ≤ x < 10^21`: the fewest significant digits that convert back to `x`,
followed by zeros (so `2^57 = 144115188075855872` prints as
`144115188075855870`). -/
def shortestDigits (x : Nat) : String :=
  let len := (toString x).length
  match (List.range len).findSome? (fun i => digitsAt x len (i + 1)) with
  | some v => toString v
  | none => toString x

/-- The operation `Number::toString`: an integer below `2^53` in magnitude
prints as its decimal digits (they are its shortest digits that convert back);
an integer from there up to `10^21` prints its shortest such digits followed by
zeros; other finite values (fractions, and the exponent form from `10^21` on)
are left to the engine. -/
def numberToString (E : Engine) : JSNum → String
  | .nan => "NaN"
  | .posInf => "Infinity"
  | .negInf => "-Infinity"
  | .fin q =>
    if q.den = 1 ∧ q.num.natAbs < 2 ^ 53 then toString q.num
    else if q.den = 1 ∧ q.num.natAbs < 10 ^ 21 then
      (if q.num < 0 then "-" else "") ++ shortestDigits q.num.natAbs
    else E.numberText q

mutual
/-- ToString on a value; an object is a plain one, without own `toString` or
`valueOf` properties. -/
def jsToString (E : Engine) : JSVal → String
  | .undefined => "undefined"
  | .null => "null"
  | .bool b => if b then "true" else "false"
  | .num n => numberToString E n
  | .str s => s
  | .arr items => ",".intercalate (joinItems E items)
  | .obj _ => "[object Object]"
/-- The per-element texts of `Array.prototype.join`: `undefined` and `null`
give the empty string. -/
def joinItems (E : Engine) : List JSVal → List String
  | [] => []
  | v :: rest => (if nullish v then "" else jsToString E v) :: joinItems E rest
end

/-- The call `items.join(sep)`. -/
def arrayJoin (E : Engine) (sep : String) (items : List JSVal) : String :=
  sep.intercalate (joinItems E items)

/-! ## `WeatherApp.jsx`, lines 24-36 -/

/-- Lines 24-27. -/
def formatTemperature (E : Engine) (value : JSVal) : String :=
  match value with
  | .num n => if n = .nan then "--" else numberToString E (mathRound n) ++ "°"
  | _ => "--"

/-- Lines 29-33. -/
def buildLocationLabel (E : Engine) (meta : JSVal) : JSVal :=
  if !truthy meta then .str ""
  else if truthy (readField meta "label") then readField meta "label"
  else .str (arrayJoin E ", "
    ([readField meta "name", readField meta "admin1", readField meta "country"].filter truthy))

/-- Line 35. -/
def HOURS_TO_SHOW : Nat := 10

/-- Lines 4-11. -/
def DEFAULT_LOCATION : JSVal :=
  .obj [("name", .str "New York"), ("country", .str "United States"),
    ("admin1", .str "New York"), ("label", .str "New York, United States"),
    ("latitude", .num (.fin 40.7128)), ("longitude", .num (.fin (-74.006)))]

/-! ## The state bundle and the view models -/

/-- The object literal of lines 77-89. -/
structure CurrentSnapshot where
  time : JSVal
  temperature : JSVal
  apparentTemperature : JSVal
  humidity : JSVal
  windSpeed : JSVal
  code : JSVal
  high : JSVal
  low : JSVal
  precipitationChance : JSVal
  sunrise : JSVal
  sunset : JSVal

/-- The object literal of lines 91-99. -/
structure DailyEntry where
  date : JSVal
  label : String
  fullLabel : String
  max : JSVal
  min : JSVal
  code : JSVal
  precipitation : JSVal

/-- The object literal of lines 108-117. -/
structure HourlyEntry where
  time : JSVal
  hourLabel : String
  temperature : JSVal
  feelsLike : JSVal
  precipitation : JSVal
  code : JSVal

/-- The `useState` cells of lines 39-46 (`current` starts as `null`). -/
structure AppState where
  query : JSVal
  location : JSVal
  current : Option CurrentSnapshot
  daily : List DailyEntry
  hourly : List HourlyEntry
  loading : Bool
  error : String
  lastUpdated : String

/-- What `await response.json()` can do and the `ok` flag of a response. -/
structure Response where
  ok : Bool
  json : Except Thrown JSVal

/-! ## The array methods the source calls -/

/-- The call `items.findIndex(p)` scanning from position `i`: the first index whose
element satisfies `p`, or `-1`. -/
def findIndexFrom (p : JSVal → Bool) : Nat → List JSVal → Int
  | _, [] => -1
  | i, x :: rest => if p x then (i : Int) else findIndexFrom p (i + 1) rest

/-- The call `items.findIndex(p)`. -/
def findIndex (p : JSVal → Bool) (items : List JSVal) : Int :=
  findIndexFrom p 0 items

/-- The call `items.slice(start, stop)` for natural `start`, `stop`. -/
def slice (items : List JSVal) (start stop : Nat) : List JSVal :=
  (items.take stop).drop start

/-- The call `items.map((x, i) => f x i)` with a callback that may throw, the first
element having index `i`. -/
def mapFrom {β : Type} (f : JSVal → Nat → Except Thrown β) :
    Nat → List JSVal → Except Thrown (List β)
  | _, [] => .ok []
  | i, x :: rest =>
    match f x i with
    | .error e => .error e
    | .ok y =>
      match mapFrom f (i + 1) rest with
      | .error e => .error e
      | .ok ys => .ok (y :: ys)

/-- The call `formatter.format(new Date(v))`: a `RangeError` on an invalid date. -/
def formatDate (E : Engine) (fmt : JSVal → String) (site : String) (v : JSVal) :
    Except Thrown String :=
  if E.dateValid v then .ok (fmt v) else .error (.rangeError site)

/-- The expression `block.key[i]`. -/
def seriesAt (block : JSVal) (key : String) (i : Nat) : Except Thrown JSVal := do
  let series ← getField key block key
  getIndex key series i

/-! ## `fetchForecastForLocation`, lines 48-124 -/

/-- Line 75. -/
def todayIndex : Nat := 0

/-- Lines 77-89, for a payload whose `current` and `daily` are truthy. -/
def currentSnapshot (payload : JSVal) : Except Thrown CurrentSnapshot := do
  let current ← getField "payload.current" payload "current"
  let daily ← getField "payload.daily" payload "daily"
  let time ← getField "time" current "time"
  let temperature ← getField "temperature_2m" current "temperature_2m"
  let apparentTemperature ← getField "apparent_temperature" current "apparent_temperature"
  let humidity ← getField "relative_humidity_2m" current "relative_humidity_2m"
  let windSpeed ← getField "wind_speed_10m" current "wind_speed_10m"
  let code ← getField "weather_code" current "weather_code"
  let high ← seriesAt daily "temperature_2m_max" todayIndex
  let low ← seriesAt daily "temperature_2m_min" todayIndex
  let precipitationChance ← seriesAt daily "precipitation_probability_max" todayIndex
  let sunrise ← seriesAt daily "sunrise" todayIndex
  let sunset ← seriesAt daily "sunset" todayIndex
  pure { time, temperature, apparentTemperature, humidity, windSpeed, code,
         high, low, precipitationChance, sunrise, sunset }

/-- The callback of lines 91-99. -/
def dailyEntry (E : Engine) (payload : JSVal) (date : JSVal) (index : Nat) :
    Except Thrown DailyEntry := do
  let label ← formatDate E E.dayFormat "dayFormatter.format" date
  let fullLabel ← formatDate E E.longDayFormat "longDayFormatter.format" date
  let daily ← getField "payload.daily" payload "daily"
  let max ← seriesAt daily "temperature_2m_max" index
  let min ← seriesAt daily "temperature_2m_min" index
  let code ← seriesAt daily "weather_code" index
  let precipitation ← seriesAt daily "precipitation_probability_max" index
  pure { date, label, fullLabel, max, min, code, precipitation }

/-- Lines 91-99. -/
def dailyForecast (E : Engine) (payload : JSVal) : Except Thrown (List DailyEntry) := do
  let daily ← getField "payload.daily" payload "daily"
  let time ← getField "payload.daily.time" daily "time"
  let dates ← asArray "payload.daily.time.map" time
  mapFrom (dailyEntry E payload) 0 dates

/-- Lines 101-104: the start of the hourly window, for a payload that passed
the guard of lines 71-73 (`payload.current` is truthy, so the callback can read
`payload.current.time`). -/
def hoursStart (payload : JSVal) : Except Thrown Nat := do
  let hourly ← getField "payload.hourly" payload "hourly"
  let time ← getField "payload.hourly.time" hourly "time"
  let stamps ← asArray "payload.hourly.time.findIndex" time
  let current ← getField "payload.current" payload "current"
  let currentTime ← getField "payload.current.time" current "time"
  let currentTimeIndex := findIndex (fun stamp => strictEq stamp currentTime) stamps
  pure (if currentTimeIndex ≥ 0 then currentTimeIndex.toNat else 0)

/-- The callback of lines 108-117. -/
def hourlyEntry (E : Engine) (payload : JSVal) (start : Nat) (timestamp : JSVal)
    (offset : Nat) : Except Thrown HourlyEntry := do
  let hourLabel ← formatDate E E.timeFormat "timeFormatter.format" timestamp
  let hourly ← getField "payload.hourly" payload "hourly"
  let temperature ← seriesAt hourly "temperature_2m" (start + offset)
  let feelsLike ← seriesAt hourly "apparent_temperature" (start + offset)
  let precipitation ← seriesAt hourly "precipitation_probability" (start + offset)
  let code ← seriesAt hourly "weather_code" (start + offset)
  pure { time := timestamp, hourLabel, temperature,
         feelsLike := coalesce feelsLike .null,
         precipitation := coalesce precipitation .null, code }

/-- Lines 101-117. -/
def hourlyForecast (E : Engine) (payload : JSVal) : Except Thrown (List HourlyEntry) := do
  let start ← hoursStart payload
  let hourly ← getField "payload.hourly" payload "hourly"
  let time ← getField "payload.hourly.time" hourly "time"
  let stamps ← asArray "payload.hourly.time.slice" time
  mapFrom (hourlyEntry E payload start) 0 (slice stamps start (start + HOURS_TO_SHOW))

/-- Lines 71-73: the guard on the three blocks. -/
def checkBlocks (payload : JSVal) : Except Thrown Unit := do
  let current ← getField "payload.current" payload "current"
  if !truthy current then throw (.error "Incomplete weather data received.")
  let daily ← getField "payload.daily" payload "daily"
  if !truthy daily then throw (.error "Incomplete weather data received.")
  let hourly ← getField "payload.hourly" payload "hourly"
  if !truthy hourly then throw (.error "Incomplete weather data received.")
  pure ()

/-- Lines 71-117: from the decoded payload to the three view models. -/
def normalize (E : Engine) (payload : JSVal) :
    Except Thrown (CurrentSnapshot × List DailyEntry × List HourlyEntry) := do
  checkBlocks payload
  let snapshot ← currentSnapshot payload
  let daily ← dailyForecast E payload
  let hourly ← hourlyForecast E payload
  pure (snapshot, daily, hourly)

/-- Lines 49-117: the request (its answer `forecast` is given by the
environment), the status check, the decoding and the normalisation. -/
def forecastViewModels (E : Engine) (forecast : Except Thrown Response)
    (targetLocation : JSVal) :
    Except Thrown (CurrentSnapshot × List DailyEntry × List HourlyEntry) := do
  let _ ← getField "targetLocation.latitude" targetLocation "latitude"
  let _ ← getField "targetLocation.longitude" targetLocation "longitude"
  let response ← forecast
  if !response.ok then throw (.error "Unable to retrieve forecast details right now.")
  let payload ← response.json
  normalize E payload

/-- Lines 48-124: the outcome of the call (`ok` or the thrown value) and the
state bundle after it; `now` is `new Date().toISOString()`. -/
def fetchForecastForLocation (E : Engine) (forecast : Except Thrown Response)
    (now : String) (targetLocation : JSVal) (st : AppState) :
    Except Thrown Unit × AppState :=
  match forecastViewModels E forecast targetLocation with
  | .error e => (.error e, st)
  | .ok (snapshot, daily, hourly) =>
    (.ok (), { st with location := targetLocation, current := some snapshot,
                       daily := daily, hourly := hourly, lastUpdated := now })

/-! ## The handlers of lines 154-299 -/

/-- The `catch` clauses: `err instanceof Error ? err.message : fallback`. -/
def caughtMessage (E : Engine) (fallback : String) : Thrown → String
  | .error message => message
  | .other => fallback
  | err => E.engineMessage err

/-- The code points `String.prototype.trim` removes (WhiteSpace and
LineTerminator of the language definition). -/
def isTrimmed (c : Char) : Bool :=
  c.val = 0x9 || c.val = 0xA || c.val = 0xB || c.val = 0xC || c.val = 0xD ||
  c.val = 0x20 || c.val = 0xA0 || c.val = 0x1680 ||
  (0x2000 ≤ c.val && c.val ≤ 0x200A) ||
  c.val = 0x2028 || c.val = 0x2029 || c.val = 0x202F || c.val = 0x205F ||
  c.val = 0x3000 || c.val = 0xFEFF

/-- The call `s.trim()`. -/
def trim (s : String) : String :=
  String.mk ((s.data.dropWhile isTrimmed).reverse.dropWhile isTrimmed).reverse

/-- The value of `v.length` for a truthy `v`. -/
def readLength (v : JSVal) : JSVal :=
  match v with
  | .arr items => .num (.fin items.length)
  | .str s => .num (.fin s.length)
  | .obj fields => lookupKey "length" fields
  | _ => .undefined

/-- The expression `a || b`. -/
def orElse (a b : JSVal) : JSVal :=
  if truthy a then a else b

/-- Lines 173-199: the forward lookup, giving the best match and
`nextLocation`; `geo` is the answer to the geocoding request. -/
def searchLocation (E : Engine) (geo : Except Thrown Response) :
    Except Thrown (JSVal × JSVal) := do
  let geoResponse ← geo
  if !geoResponse.ok then throw (.error "Unable to search for that location.")
  let geoData ← geoResponse.json
  let results ← getField "geoData.results" geoData "results"
  if !truthy results || strictEq (readLength results) (.num (.fin 0)) then
    throw (.error "We couldn't find that location. Try another search.")
  let best := readIndex results 0
  let name ← getField "match.name" best "name"
  let labelParts := [name, readField best "admin1", readField best "country"].filter truthy
  pure (best, .obj [("name", name), ("country", readField best "country"),
    ("admin1", readField best "admin1"), ("label", .str (arrayJoin E ", " labelParts)),
    ("latitude", readField best "latitude"), ("longitude", readField best "longitude")])

/-- A request `handleSearch` can issue: the forward-geocoding request of lines
166-175 with its `name` parameter, or the forecast request of lines 49-63 with
its `latitude` and `longitude` parameters. -/
inductive Request where
  | search (name : String)
  | forecast (latitude longitude : JSVal)

/-- The requests one call `fetchForecastForLocation(targetLocation)` issues:
the `fetch` of line 61, reached unless reading the coordinates (lines 50-51)
throws. -/
def forecastRequests (targetLocation : JSVal) : List Request :=
  if nullish targetLocation then []
  else [.forecast (readField targetLocation "latitude") (readField targetLocation "longitude")]

/-- Lines 154-214; `searchTerm` is the text of the search box.  The result is
the state bundle after the handler and the requests it issued, in order. -/
def handleSearch (E : Engine) (searchTerm : String) (geo forecast : Except Thrown Response)
    (now : String) (st : AppState) : AppState × List Request :=
  if trim searchTerm = "" then
    ({ st with error := "Please enter a city or region to search." }, [])
  else
    let st1 := { st with error := "", loading := true }
    match searchLocation E geo with
    | .error err =>
      ({ st1 with error := caughtMessage E "Something went wrong while searching." err,
                  loading := false },
        [.search (trim searchTerm)])
    | .ok (best, nextLocation) =>
      match fetchForecastForLocation E forecast now nextLocation st1 with
      | (.ok _, st2) =>
        ({ st2 with query := readField best "name", loading := false },
          .search (trim searchTerm) :: forecastRequests nextLocation)
      | (.error err, st2) =>
        ({ st2 with error := caughtMessage E "Something went wrong while searching." err,
                    loading := false },
          .search (trim searchTerm) :: forecastRequests nextLocation)

/-- Lines 237-245: the location used when the reverse lookup gives nothing. -/
def currentLocation (latitude longitude : JSNum) : JSVal :=
  .obj [("name", .str "Current location"), ("country", .str ""), ("admin1", .str ""),
    ("label", .str "Current location"), ("latitude", .num latitude),
    ("longitude", .num longitude)]

/-- Lines 237-274: `namedLocation` after the inner `try`/`catch`; `reverse` is
the answer to the reverse-geocoding request.  Whatever is thrown inside the
inner `try` is only logged (line 273). -/
def namedLocation (E : Engine) (latitude longitude : JSNum)
    (reverse : Except Thrown Response) : JSVal :=
  match reverse with
  | .error _ => currentLocation latitude longitude
  | .ok reverseResponse =>
    if reverseResponse.ok then
      match reverseResponse.json with
      | .error _ => currentLocation latitude longitude
      | .ok reverseData =>
        match getField "reverseData.results" reverseData "results" with
        | .error _ => currentLocation latitude longitude
        | .ok results =>
          let candidate := if nullish results then JSVal.undefined else readIndex results 0
          if truthy candidate then
            let labelParts := [readField candidate "name", readField candidate "admin1",
              readField candidate "country"].filter truthy
            let descriptiveLabel :=
              orElse (.str (arrayJoin E ", " labelParts)) (.str "Current location")
            .obj [("name", orElse (readField candidate "name") (.str "Current location")),
              ("country", readField candidate "country"),
              ("admin1", readField candidate "admin1"), ("label", descriptiveLabel),
              ("latitude", .num latitude), ("longitude", .num longitude)]
          else currentLocation latitude longitude
    else currentLocation latitude longitude

/-- What `navigator.geolocation.getCurrentPosition` reports: the coordinates,
or an error whose code is or is not `PERMISSION_DENIED`. -/
inductive GeoAnswer where
  | position (latitude longitude : JSNum)
  | failed (permissionDenied : Bool)

/-- Lines 226-287: the success callback. -/
def onPosition (E : Engine) (latitude longitude : JSNum)
    (reverse forecast : Except Thrown Response) (now : String) (st : AppState) : AppState :=
  let target := namedLocation E latitude longitude reverse
  match fetchForecastForLocation E forecast now target st with
  | (.ok _, st1) => { st1 with query := readField target "name", loading := false }
  | (.error err, st1) =>
    { st1 with error := caughtMessage E "We couldn't fetch weather for your location." err,
               loading := false }

/-- Lines 216-299; `supported` is the truthiness of `navigator.geolocation`. -/
def handleUseMyLocation (E : Engine) (supported : Bool) (answer : GeoAnswer)
    (reverse forecast : Except Thrown Response) (now : String) (st : AppState) : AppState :=
  if !supported then
    { st with error := "Your browser doesn't support location access." }
  else
    let st1 := { st with error := "", loading := true }
    match answer with
    | .position latitude longitude => onPosition E latitude longitude reverse forecast now st1
    | .failed permissionDenied =>
      { st1 with loading := false,
                 error := if permissionDenied then
                     "Please allow location access to use automatic weather detection."
                   else "We couldn't access your location just now." }

/-! ## `weatherCodes.js` -/

/-- A condition descriptor: the object literals of lines 2-36. -/
structure WeatherInfo where
  label : String
  icon : String
  variant : String
  deriving DecidableEq, Repr

/-- Lines 1-30.  The keys are written as the integers whose decimal text is the
property name. -/
def WEATHER_CODE_MAP : List (Int × WeatherInfo) := [
  (0, ⟨"Clear sky", "\u00e2\u02dc\u20ac\u00ef\u00b8", "clear"⟩),
  (1, ⟨"Mainly clear", "\u011f\u0178\u0152\u00a4\u00ef\u00b8", "clear"⟩),
  (2, ⟨"Partly cloudy", "\u00e2\u203a\u2026", "clouds"⟩),
  (3, ⟨"Overcast", "\u00e2\u02dc\u00ef\u00b8", "clouds"⟩),
  (45, ⟨"Foggy", "\u011f\u0178\u0152\u00ab\u00ef\u00b8", "mist"⟩),
  (48, ⟨"Rime fog", "\u011f\u0178\u0152\u00ab\u00ef\u00b8", "mist"⟩),
  (51, ⟨"Light drizzle", "\u011f\u0178\u0152\u00a6\u00ef\u00b8", "rain"⟩),
  (53, ⟨"Drizzle", "\u011f\u0178\u0152\u00a6\u00ef\u00b8", "rain"⟩),
  (55, ⟨"Heavy drizzle", "\u011f\u0178\u0152\u00a7\u00ef\u00b8", "rain"⟩),
  (56, ⟨"Freezing drizzle", "\u011f\u0178\u0152\u00a7\u00ef\u00b8", "snow"⟩),
  (57, ⟨"Freezing drizzle", "\u011f\u0178\u0152\u00a7\u00ef\u00b8", "snow"⟩),
  (61, ⟨"Light rain", "\u011f\u0178\u0152\u00a7\u00ef\u00b8", "rain"⟩),
  (63, ⟨"Rain", "\u011f\u0178\u0152\u00a7\u00ef\u00b8", "rain"⟩),
  (65, ⟨"Heavy rain", "\u011f\u0178\u0152\u00a7\u00ef\u00b8", "rain"⟩),
  (66, ⟨"Freezing rain", "\u011f\u0178\u0152\u00a8\u00ef\u00b8", "snow"⟩),
  (67, ⟨"Freezing rain", "\u011f\u0178\u0152\u00a8\u00ef\u00b8", "snow"⟩),
  (71, ⟨"Light snow", "\u011f\u0178\u0152\u00a8\u00ef\u00b8", "snow"⟩),
  (73, ⟨"Snow", "\u011f\u0178\u0152\u00a8\u00ef\u00b8", "snow"⟩),
  (75, ⟨"Heavy snow", "\u00e2\u201e\u00ef\u00b8", "snow"⟩),
  (77, ⟨"Snow grains", "\u00e2\u201e\u00ef\u00b8", "snow"⟩),
  (80, ⟨"Light showers", "\u011f\u0178\u0152\u00a6\u00ef\u00b8", "rain"⟩),
  (81, ⟨"Showers", "\u011f\u0178\u0152\u00a7\u00ef\u00b8", "rain"⟩),
  (82, ⟨"Heavy showers", "\u011f\u0178\u0152\u00a7\u00ef\u00b8", "rain"⟩),
  (85, ⟨"Snow showers", "\u011f\u0178\u0152\u00a8\u00ef\u00b8", "snow"⟩),
  (86, ⟨"Heavy snow showers", "\u00e2\u201e\u00ef\u00b8", "snow"⟩),
  (95, ⟨"Thunderstorm", "\u00e2\u203a\u02c6\u00ef\u00b8", "thunder"⟩),
  (96, ⟨"Thunder w/ hail", "\u00e2\u203a\u02c6\u00ef\u00b8", "thunder"⟩),
  (99, ⟨"Severe thunder", "\u00e2\u203a\u02c6\u00ef\u00b8", "thunder"⟩)
]

/-- Lines 32-36. -/
def DEFAULT_INFO : WeatherInfo := ⟨"Unknown", "\u00e2\u201d", "default"⟩

/-- Own-property lookup `WEATHER_CODE_MAP[code]` for an integer `code`: the
property name of an integer is its decimal text (an exponent form from `10^21`
on, which is the name of no entry), so it selects the entry with that key. -/
def lookupCode (code : Int) : List (Int × WeatherInfo) → Option WeatherInfo
  | [] => none
  | (k, info) :: rest => if k = code then some info else lookupCode code rest

/-- Lines 38-40, on an integer `code`; every descriptor is an object, hence
truthy, so `||` yields `DEFAULT_INFO` exactly when the lookup is `undefined`. -/
def getWeatherInfo (code : Int) : WeatherInfo :=
  match lookupCode code WEATHER_CODE_MAP with
  | some info => info
  | none => DEFAULT_INFO

/-- Lines 42-44. -/
def getThemeVariant (code : Int) : String :=
  (getWeatherInfo code).variant

/-! ## Concrete inputs -/

/-- An engine that accepts every date and formats with fixed texts; it is used
to run the model on concrete payloads. -/
def plainEngine : Engine :=
  { numberText := fun _ => "", dateValid := fun _ => true, dayFormat := fun _ => "day",
    longDayFormat := fun _ => "long day", timeFormat := fun _ => "hour",
    engineMessage := fun _ => "engine error" }

/-- The state bundle at mount, lines 39-46. -/
def initialState : AppState :=
  { query := .str "New York", location := DEFAULT_LOCATION, current := none, daily := [],
    hourly := [], loading := false, error := "", lastUpdated := "" }

/-- A daily block of two days. -/
def sampleDaily : JSVal :=
  .obj [("time", .arr [.str "2024-05-01", .str "2024-05-02"]),
    ("temperature_2m_max", .arr [.num (.fin 25), .num (.fin 24)]),
    ("temperature_2m_min", .arr [.num (.fin 11), .num (.fin 12)]),
    ("weather_code", .arr [.num (.fin 3), .num (.fin 61)]),
    ("precipitation_probability_max", .arr [.num (.fin 0), .num (.fin 80)]),
    ("sunrise", .arr [.str "2024-05-01T05:51", .str "2024-05-02T05:50"]),
    ("sunset", .arr [.str "2024-05-01T19:54", .str "2024-05-02T19:55"])]

/-- A current block stamped 01:00. -/
def sampleCurrent : JSVal :=
  .obj [("time", .str "2024-05-01T01:00"), ("temperature_2m", .num (.fin 18)),
    ("apparent_temperature", .num (.fin 17)), ("relative_humidity_2m", .num (.fin 60)),
    ("wind_speed_10m", .num (.fin 9)), ("weather_code", .num (.fin 3))]

/-- A forecast payload of two days and four hours; the hour 03:00 has no
apparent temperature (`null`) and no precipitation probability (the sequence is
shorter), the hour 02:00 has the values `0`. -/
def sampleForecast : JSVal :=
  .obj [("current", sampleCurrent), ("daily", sampleDaily),
    ("hourly", .obj [
      ("time", .arr [.str "2024-05-01T00:00", .str "2024-05-01T01:00",
        .str "2024-05-01T02:00", .str "2024-05-01T03:00"]),
      ("temperature_2m", .arr [.num (.fin 19), .num (.fin 18), .num (.fin 17), .num (.fin 16)]),
      ("apparent_temperature", .arr [.num (.fin 18), .num (.fin 17), .num (.fin 0), .null]),
      ("precipitation_probability", .arr [.num (.fin 5), .num (.fin 10), .num (.fin 0)]),
      ("weather_code", .arr [.num (.fin 3), .num (.fin 3), .num (.fin 2), .num (.fin 1)])])]

/-- A forecast payload whose hourly series carries the stamp of the current
block twice, at indices 1 and 2. -/
def repeatedStampForecast : JSVal :=
  .obj [("current", sampleCurrent), ("daily", sampleDaily),
    ("hourly", .obj [
      ("time", .arr [.str "2024-05-01T00:00", .str "2024-05-01T01:00",
        .str "2024-05-01T01:00"]),
      ("temperature_2m", .arr [.num (.fin 19), .num (.fin 18), .num (.fin 17)]),
      ("apparent_temperature", .arr [.num (.fin 18), .num (.fin 17), .num (.fin 16)]),
      ("precipitation_probability", .arr [.num (.fin 5), .num (.fin 10), .num (.fin 20)]),
      ("weather_code", .arr [.num (.fin 3), .num (.fin 3), .num (.fin 2)])])]

/-- A payload without its `hourly` block. -/
def incompleteForecast : JSVal :=
  .obj [("current", sampleCurrent), ("daily", sampleDaily)]

/-- The snapshot of an earlier forecast for Paris. -/
def shownSnapshot : CurrentSnapshot :=
  { time := .str "2024-04-30T12:00", temperature := .num (.fin 14),
    apparentTemperature := .num (.fin 13), humidity := .num (.fin 70),
    windSpeed := .num (.fin 12), code := .num (.fin 2), high := .num (.fin 16),
    low := .num (.fin 8), precipitationChance := .num (.fin 20),
    sunrise := .str "2024-04-30T06:32", sunset := .str "2024-04-30T21:05" }

/-- The daily entry of an earlier forecast for Paris. -/
def shownDay : DailyEntry :=
  { date := .str "2024-04-30", label := "Tue", fullLabel := "Tuesday, April 30",
    max := .num (.fin 16), min := .num (.fin 8), code := .num (.fin 2),
    precipitation := .num (.fin 20) }

/-- The hourly entry of an earlier forecast for Paris. -/
def shownHour : HourlyEntry :=
  { time := .str "2024-04-30T12:00", hourLabel := "12:00 PM", temperature := .num (.fin 14),
    feelsLike := .num (.fin 13), precipitation := .null, code := .num (.fin 2) }

/-- A state bundle that shows a forecast for Paris while a request is running
(`loading` set and `error` cleared, as the handlers do before they call
`fetchForecastForLocation`). -/
def shownState : AppState :=
  { query := .str "Paris",
    location := .obj [("name", .str "Paris"), ("country", .str "France"),
      ("admin1", .str "Ile-de-France"), ("label", .str "Paris, Ile-de-France, France"),
      ("latitude", .num (.fin 48.85)), ("longitude", .num (.fin 2.35))],
    current := some shownSnapshot, daily := [shownDay], hourly := [shownHour],
    loading := true, error := "", lastUpdated := "2024-04-30T12:00:05.000Z" }

/-- A successful response carrying `payload`. -/
def okResponse (payload : JSVal) : Except Thrown Response :=
  .ok { ok := true, json := .ok payload }

/-- The text a label part contributes: a string is itself, an absent part
(`undefined` or `null`) is empty; other values are not label parts. -/
def partText : JSVal → Option String
  | .str s => some s
  | .undefined => some ""
  | .null => some ""
  | _ => none

/-- A payload in the shape of the forecast service's answer: the three blocks
are present, `daily.time` and `hourly.time` are arrays of dates the formatters
accept, and every requested series is there. -/
def wellFormed (E : Engine) (payload : JSVal) : Bool :=
  !nullish payload &&
  truthy (readField payload "current") &&
  truthy (readField payload "daily") &&
  truthy (readField payload "hourly") &&
  (match readField (readField payload "daily") "time" with
    | .arr dates => dates.all E.dateValid
    | _ => false) &&
  !nullish (readField (readField payload "daily") "temperature_2m_max") &&
  !nullish (readField (readField payload "daily") "temperature_2m_min") &&
  !nullish (readField (readField payload "daily") "weather_code") &&
  !nullish (readField (readField payload "daily") "precipitation_probability_max") &&
  !nullish (readField (readField payload "daily") "sunrise") &&
  !nullish (readField (readField payload "daily") "sunset") &&
  (match readField (readField payload "hourly") "time" with
    | .arr stamps => stamps.all E.dateValid
    | _ => false) &&
  !nullish (readField (readField payload "hourly") "temperature_2m") &&
  !nullish (readField (readField payload "hourly") "apparent_temperature") &&
  !nullish (readField (readField payload "hourly") "precipitation_probability") &&
  !nullish (readField (readField payload "hourly") "weather_code")

/-! ## Property access and array methods -/

theorem getField_eq_ok {site : String} {v : JSVal} {k : String} {x : JSVal}
    (h : getField site v k = .ok x) : nullish v = false ∧ x = readField v k := by
  unfold getField at h
  split at h
  · cases h
  · rename_i hn
    injection h with h
    exact ⟨by simpa using hn, h.symm⟩

theorem getField_of_not_nullish (site : String) {v : JSVal} (k : String)
    (h : nullish v = false) : getField site v k = .ok (readField v k) := by
  simp [getField, h]

theorem getIndex_eq_ok {site : String} {v : JSVal} {i : Nat} {x : JSVal}
    (h : getIndex site v i = .ok x) : nullish v = false ∧ x = readIndex v i := by
  unfold getIndex at h
  split at h
  · cases h
  · rename_i hn
    injection h with h
    exact ⟨by simpa using hn, h.symm⟩

theorem not_nullish_of_truthy {v : JSVal} (h : truthy v = true) : nullish v = false := by
  cases v <;> simp_all [truthy, nullish]

theorem seriesAt_eq_ok {block : JSVal} {key : String} {i : Nat} {x : JSVal}
    (h : seriesAt block key i = .ok x) :
    nullish (readField block key) = false ∧ x = readIndex (readField block key) i := by
  unfold seriesAt at h
  cases hs : getField key block key with
  | error e => rw [hs] at h; cases h
  | ok series =>
    rw [hs] at h
    have h1 := getField_eq_ok hs
    have h2 := getIndex_eq_ok (by simpa [bind, Except.bind] using h)
    rw [h1.2] at h2
    exact h2

theorem asArray_eq_ok {site : String} {v : JSVal} {items : List JSVal}
    (h : asArray site v = .ok items) : v = .arr items := by
  cases v <;> simp_all [asArray]

theorem mapFrom_eq_ok {β : Type} (f : JSVal → Nat → Except Thrown β) :
    ∀ (items : List JSVal) (i : Nat) (out : List β), mapFrom f i items = .ok out →
      out.length = items.length ∧
      ∀ k (h1 : k < items.length) (h2 : k < out.length),
        f (items.get ⟨k, h1⟩) (i + k) = .ok (out.get ⟨k, h2⟩)
  | [], i, out, h => by
    simp only [mapFrom, Except.ok.injEq] at h
    subst h
    exact ⟨rfl, fun k h1 => absurd h1 (Nat.not_lt_zero k)⟩
  | x :: rest, i, out, h => by
    unfold mapFrom at h
    cases hx : f x i with
    | error e => rw [hx] at h; cases h
    | ok y =>
      rw [hx] at h
      cases hr : mapFrom f (i + 1) rest with
      | error e => rw [hr] at h; cases h
      | ok ys =>
        rw [hr] at h
        simp only [Except.ok.injEq] at h
        subst h
        obtain ⟨hlen, hget⟩ := mapFrom_eq_ok f rest (i + 1) ys hr
        refine ⟨by simp [hlen], ?_⟩
        intro k h1 h2
        cases k with
        | zero => simpa using hx
        | succ k =>
          have := hget k (by simpa using h1) (by simpa using h2)
          simpa [Nat.add_assoc, Nat.add_comm 1 k] using this

theorem findIndexFrom_spec (p : JSVal → Bool) :
    ∀ (items : List JSVal) (i : Nat),
      (findIndexFrom p i items = -1 ∧ ∀ k (h : k < items.length), p (items.get ⟨k, h⟩) = false) ∨
      ∃ k, ∃ h : k < items.length, findIndexFrom p i items = ((i + k : Nat) : Int) ∧
        p (items.get ⟨k, h⟩) = true ∧
        ∀ j (hj : j < k), p (items.get ⟨j, Nat.lt_trans hj h⟩) = false
  | [], i => Or.inl ⟨rfl, fun k h => absurd h (Nat.not_lt_zero k)⟩
  | x :: rest, i => by
    unfold findIndexFrom
    by_cases hx : p x = true
    · right
      refine ⟨0, by simp, by simp [hx], by simpa using hx, fun j hj => absurd hj (Nat.not_lt_zero j)⟩
    · have hx' : p x = false := by simpa using hx
      rcases findIndexFrom_spec p rest (i + 1) with ⟨hnone, hall⟩ | ⟨k, hk, heq, hp, hbefore⟩
      · left
        refine ⟨by simp [hx', hnone], ?_⟩
        intro k h
        cases k with
        | zero => simpa using hx'
        | succ k => simpa using hall k (by simpa using h)
      · right
        refine ⟨k + 1, by simpa using hk, ?_, by simpa using hp, ?_⟩
        · simp only [hx', Bool.false_eq_true, if_false, heq]
          congr 1
          omega
        · intro j hj
          cases j with
          | zero => simpa using hx'
          | succ j => simpa using hbefore j (by omega)

/-! ## Inversion of the normalisation -/

theorem checkBlocks_eq_ok {payload : JSVal} (h : checkBlocks payload = .ok ()) :
    nullish payload = false ∧ truthy (readField payload "current") = true ∧
      truthy (readField payload "daily") = true ∧
      truthy (readField payload "hourly") = true := by
  unfold checkBlocks at h
  cases hp : nullish payload with
  | true => simp [getField, hp, bind, Except.bind] at h
  | false =>
    simp only [getField, hp, bind, Except.bind, Bool.false_eq_true, if_false] at h
    cases hc : truthy (readField payload "current") <;>
    cases hd : truthy (readField payload "daily") <;>
    cases hh : truthy (readField payload "hourly") <;>
    simp_all [throw, throwThe, MonadExceptOf.throw, pure, Except.pure]

theorem checkBlocks_incomplete {payload : JSVal} (hp : nullish payload = false)
    (h : truthy (readField payload "current") = false ∨
      truthy (readField payload "daily") = false ∨
      truthy (readField payload "hourly") = false) :
    checkBlocks payload = .error (.error "Incomplete weather data received.") := by
  unfold checkBlocks
  simp only [getField, hp, bind, Except.bind, Bool.false_eq_true, if_false]
  cases hc : truthy (readField payload "current") <;>
  cases hd : truthy (readField payload "daily") <;>
  cases hh : truthy (readField payload "hourly") <;>
  simp_all [throw, throwThe, MonadExceptOf.throw, pure, Except.pure]

theorem normalize_eq_ok {E : Engine} {payload : JSVal} {snapshot : CurrentSnapshot}
    {daily : List DailyEntry} {hourly : List HourlyEntry}
    (h : normalize E payload = .ok (snapshot, daily, hourly)) :
    checkBlocks payload = .ok () ∧ currentSnapshot payload = .ok snapshot ∧
      dailyForecast E payload = .ok daily ∧ hourlyForecast E payload = .ok hourly := by
  unfold normalize at h
  cases h1 : checkBlocks payload with
  | error e => simp [h1, bind, Except.bind] at h
  | ok u =>
    cases h2 : currentSnapshot payload with
    | error e => simp [h1, h2, bind, Except.bind] at h
    | ok s =>
      cases h3 : dailyForecast E payload with
      | error e => simp [h1, h2, h3, bind, Except.bind] at h
      | ok d =>
        cases h4 : hourlyForecast E payload with
        | error e => simp [h1, h2, h3, h4, bind, Except.bind] at h
        | ok hs =>
          simp [h1, h2, h3, h4, bind, Except.bind, pure, Except.pure] at h
          obtain ⟨rfl, rfl, rfl⟩ := h
          exact ⟨rfl, rfl, rfl, rfl⟩

theorem fetchForecastForLocation_eq_ok {E : Engine} {forecast : Except Thrown Response}
    {now : String} {targetLocation : JSVal} {st st' : AppState}
    (h : fetchForecastForLocation E forecast now targetLocation st = (.ok (), st')) :
    ∃ response payload snapshot daily hourly,
      forecast = .ok response ∧ response.ok = true ∧ response.json = .ok payload ∧
      normalize E payload = .ok (snapshot, daily, hourly) ∧
      st' = { st with location := targetLocation, current := some snapshot,
                      daily := daily, hourly := hourly, lastUpdated := now } := by
  unfold fetchForecastForLocation at h
  cases hv : forecastViewModels E forecast targetLocation with
  | error e => simp [hv] at h
  | ok models =>
    obtain ⟨snapshot, daily, hourly⟩ := models
    simp only [hv, Prod.mk.injEq, true_and] at h
    unfold forecastViewModels at hv
    cases hlat : getField "targetLocation.latitude" targetLocation "latitude" with
    | error e => simp [hlat, bind, Except.bind] at hv
    | ok lat =>
      cases hlon : getField "targetLocation.longitude" targetLocation "longitude" with
      | error e => simp [hlat, hlon, bind, Except.bind] at hv
      | ok lon =>
        cases forecast with
        | error e => simp [hlat, hlon, bind, Except.bind] at hv
        | ok response =>
          cases hok : response.ok with
          | false =>
            simp [hlat, hlon, hok, bind, Except.bind, throw, throwThe, MonadExceptOf.throw] at hv
          | true =>
            cases hj : response.json with
            | error e =>
              simp [hlat, hlon, hok, hj, bind, Except.bind, pure, Except.pure] at hv
            | ok payload =>
              simp [hlat, hlon, hok, hj, bind, Except.bind, pure, Except.pure] at hv
              exact ⟨response, payload, snapshot, daily, hourly, rfl, hok, hj, hv, h.symm⟩

/-! ## What the three view models contain -/

theorem currentSnapshot_eq_ok {payload : JSVal} {snapshot : CurrentSnapshot}
    (h : currentSnapshot payload = .ok snapshot) :
    snapshot.time = readField (readField payload "current") "time" ∧
    snapshot.high = readIndex (readField (readField payload "daily") "temperature_2m_max") 0 ∧
    snapshot.low = readIndex (readField (readField payload "daily") "temperature_2m_min") 0 ∧
    snapshot.precipitationChance =
      readIndex (readField (readField payload "daily") "precipitation_probability_max") 0 ∧
    snapshot.sunrise = readIndex (readField (readField payload "daily") "sunrise") 0 ∧
    snapshot.sunset = readIndex (readField (readField payload "daily") "sunset") 0 := by
  unfold currentSnapshot at h
  cases hp : nullish payload with
  | true => simp [getField, hp, bind, Except.bind] at h
  | false =>
    simp only [getField_of_not_nullish _ _ hp, bind, Except.bind] at h
    cases hc : nullish (readField payload "current") with
    | true => simp [getField, hc] at h
    | false =>
      simp only [getField_of_not_nullish _ _ hc] at h
      cases h1 : seriesAt (readField payload "daily") "temperature_2m_max" todayIndex with
      | error e => simp [h1] at h
      | ok high =>
      cases h2 : seriesAt (readField payload "daily") "temperature_2m_min" todayIndex with
      | error e => simp [h1, h2] at h
      | ok low =>
      cases h3 : seriesAt (readField payload "daily") "precipitation_probability_max"
          todayIndex with
      | error e => simp [h1, h2, h3] at h
      | ok chance =>
      cases h4 : seriesAt (readField payload "daily") "sunrise" todayIndex with
      | error e => simp [h1, h2, h3, h4] at h
      | ok sunrise =>
      cases h5 : seriesAt (readField payload "daily") "sunset" todayIndex with
      | error e => simp [h1, h2, h3, h4, h5] at h
      | ok sunset =>
        simp only [h1, h2, h3, h4, h5, pure, Except.pure, Except.ok.injEq] at h
        subst h
        exact ⟨rfl, (seriesAt_eq_ok h1).2, (seriesAt_eq_ok h2).2, (seriesAt_eq_ok h3).2,
          (seriesAt_eq_ok h4).2, (seriesAt_eq_ok h5).2⟩

theorem dailyEntry_eq_ok {E : Engine} {payload date : JSVal} {index : Nat} {entry : DailyEntry}
    (h : dailyEntry E payload date index = .ok entry) :
    entry.date = date ∧ entry.label = E.dayFormat date ∧
    entry.fullLabel = E.longDayFormat date ∧
    entry.max = readIndex (readField (readField payload "daily") "temperature_2m_max") index ∧
    entry.min = readIndex (readField (readField payload "daily") "temperature_2m_min") index ∧
    entry.code = readIndex (readField (readField payload "daily") "weather_code") index ∧
    entry.precipitation =
      readIndex (readField (readField payload "daily") "precipitation_probability_max") index := by
  unfold dailyEntry at h
  cases hv : E.dateValid date with
  | false => simp [formatDate, hv, bind, Except.bind] at h
  | true =>
    simp only [formatDate, hv, if_true, bind, Except.bind] at h
    cases hp : nullish payload with
    | true => simp [getField, hp] at h
    | false =>
      simp only [getField_of_not_nullish _ _ hp] at h
      cases h1 : seriesAt (readField payload "daily") "temperature_2m_max" index with
      | error e => simp [h1] at h
      | ok max =>
      cases h2 : seriesAt (readField payload "daily") "temperature_2m_min" index with
      | error e => simp [h1, h2] at h
      | ok min =>
      cases h3 : seriesAt (readField payload "daily") "weather_code" index with
      | error e => simp [h1, h2, h3] at h
      | ok code =>
      cases h4 : seriesAt (readField payload "daily") "precipitation_probability_max" index with
      | error e => simp [h1, h2, h3, h4] at h
      | ok precipitation =>
        simp only [h1, h2, h3, h4, pure, Except.pure, Except.ok.injEq] at h
        subst h
        exact ⟨rfl, rfl, rfl, (seriesAt_eq_ok h1).2, (seriesAt_eq_ok h2).2,
          (seriesAt_eq_ok h3).2, (seriesAt_eq_ok h4).2⟩

theorem dailyForecast_eq_ok {E : Engine} {payload : JSVal} {daily : List DailyEntry}
    (h : dailyForecast E payload = .ok daily) :
    ∃ dates, readField (readField payload "daily") "time" = .arr dates ∧
      mapFrom (dailyEntry E payload) 0 dates = .ok daily := by
  unfold dailyForecast at h
  cases hp : nullish payload with
  | true => simp [getField, hp, bind, Except.bind] at h
  | false =>
    simp only [getField_of_not_nullish _ _ hp, bind, Except.bind] at h
    cases hd : nullish (readField payload "daily") with
    | true => simp [getField, hd] at h
    | false =>
      simp only [getField_of_not_nullish _ _ hd] at h
      cases ha : asArray "payload.daily.time.map" (readField (readField payload "daily") "time") with
      | error e => simp [ha] at h
      | ok dates =>
        simp only [ha] at h
        exact ⟨dates, asArray_eq_ok ha, h⟩

theorem hoursStart_eq_ok {payload : JSVal} {start : Nat} (h : hoursStart payload = .ok start) :
    ∃ stamps, readField (readField payload "hourly") "time" = .arr stamps ∧
      start =
        (if findIndex (fun stamp => strictEq stamp (readField (readField payload "current") "time"))
            stamps ≥ 0 then
          (findIndex (fun stamp => strictEq stamp (readField (readField payload "current") "time"))
            stamps).toNat
        else 0) := by
  unfold hoursStart at h
  cases hp : nullish payload with
  | true => simp [getField, hp, bind, Except.bind] at h
  | false =>
    simp only [getField_of_not_nullish _ _ hp, bind, Except.bind] at h
    cases hd : nullish (readField payload "hourly") with
    | true => simp [getField, hd] at h
    | false =>
      simp only [getField_of_not_nullish _ _ hd] at h
      cases ha : asArray "payload.hourly.time.findIndex"
          (readField (readField payload "hourly") "time") with
      | error e => simp [ha] at h
      | ok stamps =>
        simp only [ha] at h
        cases hc : nullish (readField payload "current") with
        | true => simp [getField, hc] at h
        | false =>
          simp only [getField_of_not_nullish _ _ hc, pure, Except.pure, Except.ok.injEq] at h
          exact ⟨stamps, asArray_eq_ok ha, h.symm⟩

theorem hourlyEntry_eq_ok {E : Engine} {payload timestamp : JSVal} {start offset : Nat}
    {entry : HourlyEntry} (h : hourlyEntry E payload start timestamp offset = .ok entry) :
    entry.time = timestamp ∧ entry.hourLabel = E.timeFormat timestamp ∧
    entry.temperature =
      readIndex (readField (readField payload "hourly") "temperature_2m") (start + offset) ∧
    entry.feelsLike =
      coalesce (readIndex (readField (readField payload "hourly") "apparent_temperature")
        (start + offset)) .null ∧
    entry.precipitation =
      coalesce (readIndex (readField (readField payload "hourly") "precipitation_probability")
        (start + offset)) .null ∧
    entry.code =
      readIndex (readField (readField payload "hourly") "weather_code") (start + offset) := by
  unfold hourlyEntry at h
  cases hv : E.dateValid timestamp with
  | false => simp [formatDate, hv, bind, Except.bind] at h
  | true =>
    simp only [formatDate, hv, if_true, bind, Except.bind] at h
    cases hp : nullish payload with
    | true => simp [getField, hp] at h
    | false =>
      simp only [getField_of_not_nullish _ _ hp] at h
      cases h1 : seriesAt (readField payload "hourly") "temperature_2m" (start + offset) with
      | error e => simp [h1] at h
      | ok temperature =>
      cases h2 : seriesAt (readField payload "hourly") "apparent_temperature"
          (start + offset) with
      | error e => simp [h1, h2] at h
      | ok feels =>
      cases h3 : seriesAt (readField payload "hourly") "precipitation_probability"
          (start + offset) with
      | error e => simp [h1, h2, h3] at h
      | ok precipitation =>
      cases h4 : seriesAt (readField payload "hourly") "weather_code" (start + offset) with
      | error e => simp [h1, h2, h3, h4] at h
      | ok code =>
        simp only [h1, h2, h3, h4, pure, Except.pure, Except.ok.injEq] at h
        subst h
        refine ⟨rfl, rfl, (seriesAt_eq_ok h1).2, ?_, ?_, (seriesAt_eq_ok h4).2⟩
        · simp [(seriesAt_eq_ok h2).2]
        · simp [(seriesAt_eq_ok h3).2]

theorem hourlyForecast_eq_ok {E : Engine} {payload : JSVal} {hourly : List HourlyEntry}
    (h : hourlyForecast E payload = .ok hourly) :
    ∃ stamps start, readField (readField payload "hourly") "time" = .arr stamps ∧
      hoursStart payload = .ok start ∧
      mapFrom (hourlyEntry E payload start) 0 (slice stamps start (start + HOURS_TO_SHOW))
        = .ok hourly := by
  unfold hourlyForecast at h
  cases hs : hoursStart payload with
  | error e => simp [hs, bind, Except.bind] at h
  | ok start =>
    simp only [hs, bind, Except.bind] at h
    cases hp : nullish payload with
    | true => simp [getField, hp] at h
    | false =>
      simp only [getField_of_not_nullish _ _ hp] at h
      cases hd : nullish (readField payload "hourly") with
      | true => simp [getField, hd] at h
      | false =>
        simp only [getField_of_not_nullish _ _ hd] at h
        cases ha : asArray "payload.hourly.time.slice"
            (readField (readField payload "hourly") "time") with
        | error e => simp [ha] at h
        | ok stamps =>
          simp only [ha] at h
          exact ⟨stamps, start, asArray_eq_ok ha, rfl, h⟩

theorem slice_length (items : List JSVal) (start width : Nat) :
    (slice items start (start + width)).length = min width (items.length - start) := by
  simp only [slice, List.length_drop, List.length_take]
  omega

theorem mapFrom_getElem? {β : Type} {f : JSVal → Nat → Except Thrown β} {items : List JSVal}
    {i : Nat} {out : List β} (h : mapFrom f i items = .ok out) {k : Nat} {y : β}
    (hy : out[k]? = some y) : ∃ x, items[k]? = some x ∧ f x (i + k) = .ok y := by
  obtain ⟨hlen, hget⟩ := mapFrom_eq_ok f items i out h
  obtain ⟨hk, rfl⟩ := List.getElem?_eq_some.mp hy
  have hk' : k < items.length := hlen ▸ hk
  exact ⟨items[k], List.getElem?_eq_getElem hk', by simpa using hget k hk' hk⟩

theorem map_of_mapFrom {β : Type} {f : JSVal → Nat → Except Thrown β} {items : List JSVal}
    {out : List β} (h : mapFrom f 0 items = .ok out) (g : β → JSVal) (series : List JSVal)
    (hlen : series.length = items.length)
    (hg : ∀ k x y, items[k]? = some x → f x k = .ok y → g y = series.getD k .undefined) :
    out.map g = series := by
  obtain ⟨hout, hget⟩ := mapFrom_eq_ok f items 0 out h
  apply List.ext_getElem
  · simp [hout, hlen]
  · intro k h1 h2
    have hk : k < items.length := hlen ▸ h2
    have hk' : k < out.length := hout ▸ hk
    have := hg k items[k] out[k] (List.getElem?_eq_getElem hk) (by simpa using hget k hk hk')
    simp only [List.getElem_map, this]
    simp [List.getD_eq_getElem?_getD, List.getElem?_eq_getElem h2]

theorem slice_getElem? {items : List JSVal} {start width k : Nat} {x : JSVal}
    (h : (slice items start (start + width))[k]? = some x) :
    items[start + k]? = some x ∧ k < width := by
  simp only [slice, List.getElem?_drop, List.getElem?_take] at h
  split at h
  · exact ⟨h, by omega⟩
  · cases h

theorem hourlyForecast_entry {E : Engine} {payload : JSVal} {hourly : List HourlyEntry}
    (h : hourlyForecast E payload = .ok hourly) :
    ∃ stamps start, readField (readField payload "hourly") "time" = .arr stamps ∧
      hoursStart payload = .ok start ∧
      hourly.length = min HOURS_TO_SHOW (stamps.length - start) ∧
      ∀ k entry, hourly[k]? = some entry →
        stamps[start + k]? = some entry.time ∧
        entry.hourLabel = E.timeFormat entry.time ∧
        entry.temperature =
          readIndex (readField (readField payload "hourly") "temperature_2m") (start + k) ∧
        entry.feelsLike =
          coalesce (readIndex (readField (readField payload "hourly") "apparent_temperature")
            (start + k)) .null ∧
        entry.precipitation =
          coalesce (readIndex (readField (readField payload "hourly")
            "precipitation_probability") (start + k)) .null ∧
        entry.code =
          readIndex (readField (readField payload "hourly") "weather_code") (start + k) := by
  obtain ⟨stamps, start, htime, hstart, hmap⟩ := hourlyForecast_eq_ok h
  refine ⟨stamps, start, htime, hstart, ?_, ?_⟩
  · rw [(mapFrom_eq_ok _ _ _ _ hmap).1, slice_length]
  · intro k entry hk
    obtain ⟨x, hx, hentry⟩ := mapFrom_getElem? hmap hk
    have hfields := hourlyEntry_eq_ok hentry
    rw [Nat.zero_add] at hfields
    obtain ⟨h1, h2, h3, h4, h5, h6⟩ := hfields
    refine ⟨?_, ?_, h3, h4, h5, h6⟩
    · rw [h1]; exact (slice_getElem? hx).1
    · rw [h2, h1]

theorem fetchForecastForLocation_success {E : Engine} {forecast : Except Thrown Response}
    {now : String} {targetLocation : JSVal} {st : AppState}
    (h : (fetchForecastForLocation E forecast now targetLocation st).1 = .ok ()) :
    ∃ response payload snapshot daily hourly,
      forecast = .ok response ∧ response.ok = true ∧ response.json = .ok payload ∧
      normalize E payload = .ok (snapshot, daily, hourly) ∧
      (fetchForecastForLocation E forecast now targetLocation st).2 =
        { st with location := targetLocation, current := some snapshot,
                  daily := daily, hourly := hourly, lastUpdated := now } :=
  fetchForecastForLocation_eq_ok (Prod.ext h rfl)

/-! ## The call completes on a well-formed payload -/

theorem seriesAt_of_not_nullish {block : JSVal} (key : String) (i : Nat)
    (hb : nullish block = false) (hs : nullish (readField block key) = false) :
    seriesAt block key i = .ok (readIndex (readField block key) i) := by
  simp [seriesAt, getField, getIndex, hb, hs, bind, Except.bind]

theorem mapFrom_of_forall {β : Type} (f : JSVal → Nat → Except Thrown β) :
    ∀ (items : List JSVal) (i : Nat), (∀ x ∈ items, ∀ k, ∃ y, f x k = .ok y) →
      ∃ out, mapFrom f i items = .ok out
  | [], _, _ => ⟨[], rfl⟩
  | x :: rest, i, h => by
    obtain ⟨y, hy⟩ := h x (List.mem_cons_self x rest) i
    obtain ⟨ys, hys⟩ := mapFrom_of_forall f rest (i + 1)
      (fun z hz k => h z (List.mem_cons_of_mem x hz) k)
    exact ⟨y :: ys, by simp [mapFrom, hy, hys]⟩

theorem mem_of_mem_slice {items : List JSVal} {start stop : Nat} {x : JSVal}
    (h : x ∈ slice items start stop) : x ∈ items :=
  List.mem_of_mem_take (List.mem_of_mem_drop h)

theorem normalize_of_wellFormed {E : Engine} {payload : JSVal}
    (h : wellFormed E payload = true) : ∃ models, normalize E payload = .ok models := by
  simp only [wellFormed, Bool.and_eq_true, Bool.not_eq_true'] at h
  obtain ⟨⟨⟨⟨⟨⟨⟨⟨⟨⟨⟨⟨⟨⟨⟨hp, hc⟩, hd⟩, hh⟩, hdates⟩, d1⟩, d2⟩, d3⟩, d4⟩, d5⟩, d6⟩, hstamps⟩,
    s1⟩, s2⟩, s3⟩, s4⟩ := h
  have hc' := not_nullish_of_truthy hc
  have hd' := not_nullish_of_truthy hd
  have hh' := not_nullish_of_truthy hh
  have hblocks : checkBlocks payload = .ok () := by
    simp [checkBlocks, getField, hp, hc, hd, hh, bind, Except.bind, pure, Except.pure]
  have hsnap : ∃ snapshot, currentSnapshot payload = .ok snapshot := by
    simp [currentSnapshot, getField_of_not_nullish _ _ hp, getField_of_not_nullish _ _ hc',
      seriesAt_of_not_nullish _ _ hd' d1, seriesAt_of_not_nullish _ _ hd' d2,
      seriesAt_of_not_nullish _ _ hd' d4, seriesAt_of_not_nullish _ _ hd' d5,
      seriesAt_of_not_nullish _ _ hd' d6, bind, Except.bind, pure, Except.pure]
  have hdaily : ∃ daily, dailyForecast E payload = .ok daily := by
    cases ht : readField (readField payload "daily") "time" with
    | arr dates =>
      rw [ht] at hdates
      have hall : ∀ x ∈ dates, E.dateValid x = true := by simpa using hdates
      obtain ⟨out, hout⟩ := mapFrom_of_forall (dailyEntry E payload) dates 0 (by
        intro x hx k
        simp [dailyEntry, formatDate, hall x hx, getField_of_not_nullish _ _ hp,
          seriesAt_of_not_nullish _ _ hd' d1, seriesAt_of_not_nullish _ _ hd' d2,
          seriesAt_of_not_nullish _ _ hd' d3, seriesAt_of_not_nullish _ _ hd' d4,
          bind, Except.bind, pure, Except.pure])
      exact ⟨out, by
        simp [dailyForecast, getField_of_not_nullish _ _ hp, getField_of_not_nullish _ _ hd',
          ht, asArray, hout, bind, Except.bind]⟩
    | _ => rw [ht] at hdates; cases hdates
  have hhourly : ∃ hourly, hourlyForecast E payload = .ok hourly := by
    cases ht : readField (readField payload "hourly") "time" with
    | arr stamps =>
      rw [ht] at hstamps
      have hall : ∀ x ∈ stamps, E.dateValid x = true := by simpa using hstamps
      have hstart : ∃ start, hoursStart payload = .ok start := by
        simp [hoursStart, getField_of_not_nullish _ _ hp, getField_of_not_nullish _ _ hh',
          getField_of_not_nullish _ _ hc', ht, asArray, bind, Except.bind, pure, Except.pure]
      obtain ⟨start, hstart⟩ := hstart
      obtain ⟨out, hout⟩ := mapFrom_of_forall (hourlyEntry E payload start)
        (slice stamps start (start + HOURS_TO_SHOW)) 0 (by
        intro x hx k
        simp [hourlyEntry, formatDate, hall x (mem_of_mem_slice hx),
          getField_of_not_nullish _ _ hp,
          seriesAt_of_not_nullish _ _ hh' s1, seriesAt_of_not_nullish _ _ hh' s2,
          seriesAt_of_not_nullish _ _ hh' s3, seriesAt_of_not_nullish _ _ hh' s4,
          bind, Except.bind, pure, Except.pure])
      exact ⟨out, by
        simp [hourlyForecast, hstart, getField_of_not_nullish _ _ hp,
          getField_of_not_nullish _ _ hh', ht, asArray, hout, bind, Except.bind]⟩
    | _ => rw [ht] at hstamps; cases hstamps
  obtain ⟨snapshot, hsnap⟩ := hsnap
  obtain ⟨daily, hdaily⟩ := hdaily
  obtain ⟨hourly, hhourly⟩ := hhourly
  exact ⟨(snapshot, daily, hourly), by
    simp [normalize, hblocks, hsnap, hdaily, hhourly, bind, Except.bind, pure, Except.pure]⟩

theorem fetchForecastForLocation_of_wellFormed {E : Engine} {forecast : Except Thrown Response}
    {response : Response} {payload : JSVal} (now : String) {targetLocation : JSVal}
    (st : AppState) (hf : forecast = .ok response) (hj : response.json = .ok payload)
    (htarget : nullish targetLocation = false) (hstatus : response.ok = true)
    (hwf : wellFormed E payload = true) :
    (fetchForecastForLocation E forecast now targetLocation st).1 = .ok () := by
  obtain ⟨⟨snapshot, daily, hourly⟩, hnorm⟩ := normalize_of_wellFormed hwf
  unfold fetchForecastForLocation forecastViewModels
  simp [getField_of_not_nullish _ _ htarget, hf, hstatus, hj, hnorm, bind, Except.bind, pure,
    Except.pure]

/-! ## The hourly window -/

/-- C1 (as stated, refuted): the hourly series of `repeatedStampForecast` equals
the current stamp at index 2 as well, yet the window starts at index 1, the
first match: the first hourly entry produced is built from index 1. -/
theorem hoursStart_not_every_match :
    checkBlocks repeatedStampForecast = .ok () ∧
    (∃ stamps x, readField (readField repeatedStampForecast "hourly") "time" = .arr stamps ∧
      stamps[2]? = some x ∧
      strictEq x (readField (readField repeatedStampForecast "current") "time") = true) ∧
    hoursStart repeatedStampForecast = .ok 1 ∧
    hoursStart repeatedStampForecast ≠ .ok 2 ∧
    ((fetchForecastForLocation plainEngine (okResponse repeatedStampForecast) "t"
        DEFAULT_LOCATION initialState).2.hourly.map (fun entry => entry.temperature))
      = [.num (.fin 18), .num (.fin 17)] := by
  refine ⟨rfl, ⟨_, _, rfl, rfl, rfl⟩, rfl, ?_, rfl⟩
  intro h
  have h1 : hoursStart repeatedStampForecast = .ok 1 := rfl
  rw [h1] at h
  injection h with h
  exact absurd h (by decide)

theorem hoursStart_of_blocks {payload : JSVal} {stamps : List JSVal}
    (hblocks : checkBlocks payload = .ok ())
    (htime : readField (readField payload "hourly") "time" = .arr stamps) :
    ∃ start, hoursStart payload = .ok start ∧
      ((∃ x, stamps[start]? = some x ∧
          strictEq x (readField (readField payload "current") "time") = true ∧
          ∀ (j : Nat) (y : JSVal), j < start → stamps[j]? = some y →
            strictEq y (readField (readField payload "current") "time") = false) ∨
        (start = 0 ∧ ∀ (j : Nat) (y : JSVal), stamps[j]? = some y →
            strictEq y (readField (readField payload "current") "time") = false)) := by
  obtain ⟨hp, hc, _, hh⟩ := checkBlocks_eq_ok hblocks
  have hstart : hoursStart payload = .ok
      (if findIndex (fun stamp => strictEq stamp (readField (readField payload "current") "time"))
          stamps ≥ 0 then
        (findIndex (fun stamp => strictEq stamp (readField (readField payload "current") "time"))
          stamps).toNat
      else 0) := by
    unfold hoursStart
    simp only [getField_of_not_nullish _ _ hp,
      getField_of_not_nullish _ _ (not_nullish_of_truthy hh),
      getField_of_not_nullish _ _ (not_nullish_of_truthy hc), htime, asArray, bind,
      Except.bind, pure, Except.pure]
  refine ⟨_, hstart, ?_⟩
  rcases findIndexFrom_spec
      (fun stamp => strictEq stamp (readField (readField payload "current") "time")) stamps 0
    with ⟨hnone, hall⟩ | ⟨k, hk, heq, hp, hbefore⟩
  · right
    have hfi : findIndex (fun stamp => strictEq stamp
        (readField (readField payload "current") "time")) stamps = -1 := hnone
    refine ⟨by simp [hfi], ?_⟩
    intro j y hj
    obtain ⟨hlt, rfl⟩ := List.getElem?_eq_some.mp hj
    simpa using hall j hlt
  · left
    have hfi : findIndex (fun stamp => strictEq stamp
        (readField (readField payload "current") "time")) stamps = (k : Int) := by
      simpa [findIndex] using heq
    have hs : (if findIndex (fun stamp => strictEq stamp
          (readField (readField payload "current") "time")) stamps ≥ 0 then
        (findIndex (fun stamp => strictEq stamp
          (readField (readField payload "current") "time")) stamps).toNat
        else 0) = k := by
      simp [hfi]
    rw [hs]
    refine ⟨stamps[k], List.getElem?_eq_getElem hk, by simpa using hp, ?_⟩
    intro j y hj hy
    obtain ⟨hlt, rfl⟩ := List.getElem?_eq_some.mp hy
    simpa using hbefore j hj

/-- C1 (amended): the hourly window starts at the least index whose stamp is
strictly equal to `current.time`, and at 0 when no stamp is. On a well-formed
payload of a successful response the call completes; whenever it completes,
`hourly.time` is an array, `hoursStart` is that index, the first hourly entry
exists when the index is inside the series and carries the stamp of that index,
and the entry at offset `k` is built from index `hoursStart + k`. For any
payload with the three blocks present whose `hourly.time` is an array,
`hoursStart` returns that index. -/
theorem hoursStart_first_match (E : Engine) (forecast : Except Thrown Response) (now : String)
    (targetLocation : JSVal) (st : AppState) (response : Response) (payload : JSVal)
    (hf : forecast = .ok response) (hj : response.json = .ok payload) :
    (wellFormed E payload = true → response.ok = true → nullish targetLocation = false →
      (fetchForecastForLocation E forecast now targetLocation st).1 = .ok ()) ∧
    ((fetchForecastForLocation E forecast now targetLocation st).1 = .ok () →
      ∃ stamps start, readField (readField payload "hourly") "time" = .arr stamps ∧
        hoursStart payload = .ok start ∧
        ((∃ x, stamps[start]? = some x ∧
            strictEq x (readField (readField payload "current") "time") = true ∧
            ∀ (j : Nat) (y : JSVal), j < start → stamps[j]? = some y →
              strictEq y (readField (readField payload "current") "time") = false) ∨
          (start = 0 ∧ ∀ (j : Nat) (y : JSVal), stamps[j]? = some y →
              strictEq y (readField (readField payload "current") "time") = false)) ∧
        (start < stamps.length →
          ∃ first, (fetchForecastForLocation E forecast now targetLocation st).2.hourly[0]?
              = some first ∧
            stamps[start]? = some first.time ∧
            first.temperature =
              readIndex (readField (readField payload "hourly") "temperature_2m") start) ∧
        ∀ (k : Nat) (entry : HourlyEntry),
          (fetchForecastForLocation E forecast now targetLocation st).2.hourly[k]? = some entry →
          stamps[start + k]? = some entry.time ∧
          entry.temperature =
            readIndex (readField (readField payload "hourly") "temperature_2m") (start + k) ∧
          entry.code =
            readIndex (readField (readField payload "hourly") "weather_code") (start + k)) ∧
    (∀ stamps : List JSVal, checkBlocks payload = .ok () →
      readField (readField payload "hourly") "time" = .arr stamps →
      ∃ start, hoursStart payload = .ok start ∧
        ((∃ x, stamps[start]? = some x ∧
            strictEq x (readField (readField payload "current") "time") = true ∧
            ∀ (j : Nat) (y : JSVal), j < start → stamps[j]? = some y →
              strictEq y (readField (readField payload "current") "time") = false) ∨
          (start = 0 ∧ ∀ (j : Nat) (y : JSVal), stamps[j]? = some y →
              strictEq y (readField (readField payload "current") "time") = false))) := by
  refine ⟨fun hwf hstatus htarget =>
    fetchForecastForLocation_of_wellFormed now st hf hj htarget hstatus hwf, ?_,
    fun stamps hblocks htime => hoursStart_of_blocks hblocks htime⟩
  intro hok
  obtain ⟨response', payload', snapshot, daily, hourly, hf', _, hj', hnorm, hst⟩ :=
    fetchForecastForLocation_success hok
  rw [hf] at hf'
  injection hf' with hf'
  subst hf'
  rw [hj] at hj'
  injection hj' with hj'
  subst hj'
  obtain ⟨hblocks, _, _, hhourly⟩ := normalize_eq_ok hnorm
  obtain ⟨stamps, start, htime, hstart, hlen, hentries⟩ := hourlyForecast_entry hhourly
  obtain ⟨start', hstart', hleast⟩ := hoursStart_of_blocks hblocks htime
  rw [hstart] at hstart'
  injection hstart' with hstart'
  subst hstart'
  have hentries' : ∀ (k : Nat) (entry : HourlyEntry),
      (fetchForecastForLocation E forecast now targetLocation st).2.hourly[k]? = some entry →
      stamps[start + k]? = some entry.time ∧
      entry.temperature =
        readIndex (readField (readField payload "hourly") "temperature_2m") (start + k) ∧
      entry.code =
        readIndex (readField (readField payload "hourly") "weather_code") (start + k) := by
    intro k entry hentry
    rw [hst] at hentry
    obtain ⟨h1, _, h3, _, _, h6⟩ := hentries k entry hentry
    exact ⟨h1, h3, h6⟩
  refine ⟨stamps, start, htime, hstart, hleast, ?_, hentries'⟩
  intro hlt
  have hpos : 0 < hourly.length := by
    rw [hlen]
    have : HOURS_TO_SHOW = 10 := rfl
    omega
  have hfirst : (fetchForecastForLocation E forecast now targetLocation st).2.hourly[0]?
      = some (hourly.get ⟨0, hpos⟩) := by
    rw [hst]
    exact List.getElem?_eq_getElem hpos
  obtain ⟨h1, h3, _⟩ := hentries' 0 _ hfirst
  exact ⟨_, hfirst, by simpa using h1, by simpa using h3⟩

/-- C1 (amended) on `sampleForecast`, whose current stamp is at index 1 only:
the call completes, the window starts at index 1, and the first hourly entry
carries the stamp and the temperature of index 1. -/
theorem hoursStart_first_match_witness :
    wellFormed plainEngine sampleForecast = true ∧
    (fetchForecastForLocation plainEngine (okResponse sampleForecast) "t" DEFAULT_LOCATION
      shownState).1 = .ok () ∧
    hoursStart sampleForecast = .ok 1 ∧
    ∃ first, (fetchForecastForLocation plainEngine (okResponse sampleForecast) "t"
        DEFAULT_LOCATION shownState).2.hourly[0]? = some first ∧
      first.time = .str "2024-05-01T01:00" ∧ first.temperature = .num (.fin 18) := by
  have key := hoursStart_first_match plainEngine (okResponse sampleForecast) "t"
    DEFAULT_LOCATION shownState { ok := true, json := .ok sampleForecast } sampleForecast
    rfl rfl
  have hok := key.1 rfl rfl rfl
  obtain ⟨stamps, start, htime, hstart, _, hfirst, _⟩ := key.2.1 hok
  have h1 : hoursStart sampleForecast = .ok 1 := rfl
  rw [h1] at hstart
  injection hstart with hstart
  subst hstart
  have hstamps : readField (readField sampleForecast "hourly") "time" = .arr
      [.str "2024-05-01T00:00", .str "2024-05-01T01:00", .str "2024-05-01T02:00",
        .str "2024-05-01T03:00"] := rfl
  rw [hstamps] at htime
  injection htime with htime
  subst htime
  obtain ⟨first, hget, htimeFirst, htemp⟩ := hfirst (by decide)
  refine ⟨rfl, hok, rfl, first, hget, ?_, htemp.trans rfl⟩
  have h : [JSVal.str "2024-05-01T00:00", .str "2024-05-01T01:00", .str "2024-05-01T02:00",
      .str "2024-05-01T03:00"][1]? = some (JSVal.str "2024-05-01T01:00") := rfl
  rw [h] at htimeFirst
  injection htimeFirst with htimeFirst
  exact htimeFirst.symm

/-- C2: on a well-formed payload of a successful response the call completes;
and whenever it completes, the number of hourly entries it stores is
`min HOURS_TO_SHOW (length hourly.time - hoursStart)`, with
`HOURS_TO_SHOW = 10`; so it never exceeds 10 and is 0 for an empty
`hourly.time`. -/
theorem hourly_window_length (E : Engine) (forecast : Except Thrown Response) (now : String)
    (targetLocation : JSVal) (st : AppState) (response : Response) (payload : JSVal)
    (hf : forecast = .ok response) (hj : response.json = .ok payload) :
    (wellFormed E payload = true → response.ok = true → nullish targetLocation = false →
      (fetchForecastForLocation E forecast now targetLocation st).1 = .ok ()) ∧
    ((fetchForecastForLocation E forecast now targetLocation st).1 = .ok () →
    (∃ stamps start, readField (readField payload "hourly") "time" = .arr stamps ∧
      hoursStart payload = .ok start ∧
      (fetchForecastForLocation E forecast now targetLocation st).2.hourly.length
        = min 10 (stamps.length - start) ∧
      HOURS_TO_SHOW = 10 ∧
      (fetchForecastForLocation E forecast now targetLocation st).2.hourly.length ≤ 10 ∧
      (stamps = [] →
        (fetchForecastForLocation E forecast now targetLocation st).2.hourly = []))) := by
  refine ⟨fun hwf hstatus htarget =>
    fetchForecastForLocation_of_wellFormed now st hf hj htarget hstatus hwf, ?_⟩
  intro hok
  obtain ⟨response', payload', snapshot, daily, hourly, hf', _, hj', hnorm, hst⟩ :=
    fetchForecastForLocation_success hok
  rw [hf] at hf'
  injection hf' with hf'
  subst hf'
  rw [hj] at hj'
  injection hj' with hj'
  subst hj'
  obtain ⟨stamps, start, htime, hstart, hlen, _⟩ :=
    hourlyForecast_entry (normalize_eq_ok hnorm).2.2.2
  have hlen' : hourly.length = min 10 (stamps.length - start) := hlen
  refine ⟨stamps, start, htime, hstart, ?_, rfl, ?_, ?_⟩
  · rw [hst]; exact hlen'
  · rw [hst]; show hourly.length ≤ 10; omega
  · intro hnil
    rw [hst]
    show hourly = []
    apply List.eq_nil_of_length_eq_zero
    rw [hlen', hnil]
    simp

/-- C2 on `sampleForecast`: four stamps, start 1, three entries. -/
theorem hourly_window_length_witness :
    wellFormed plainEngine sampleForecast = true ∧
    (fetchForecastForLocation plainEngine (okResponse sampleForecast) "t" DEFAULT_LOCATION
      initialState).1 = .ok () ∧
    ∃ stamps start, readField (readField sampleForecast "hourly") "time" = .arr stamps ∧
      hoursStart sampleForecast = .ok start ∧ stamps.length = 4 ∧ start = 1 ∧
      (fetchForecastForLocation plainEngine (okResponse sampleForecast) "t" DEFAULT_LOCATION
        initialState).2.hourly.length = 3 := by
  have key := hourly_window_length plainEngine (okResponse sampleForecast) "t" DEFAULT_LOCATION
    initialState { ok := true, json := .ok sampleForecast } sampleForecast rfl rfl
  have hok := key.1 rfl rfl rfl
  refine ⟨rfl, hok, ?_⟩
  obtain ⟨stamps, start, htime, hstart, hlen, _⟩ := key.2 hok
  exact ⟨stamps, start, htime, hstart, by
    have h : readField (readField sampleForecast "hourly") "time" = .arr
      [.str "2024-05-01T00:00", .str "2024-05-01T01:00", .str "2024-05-01T02:00",
        .str "2024-05-01T03:00"] := rfl
    rw [h] at htime
    injection htime with htime
    rw [← htime]; rfl, by
    have h1 : hoursStart sampleForecast = .ok 1 := rfl
    rw [h1] at hstart
    injection hstart with hstart
    exact hstart.symm, rfl⟩

/-! ## Optional hourly fields, the snapshot, the daily list, the block guard -/

/-- C3: for a payload whose hourly block carries the `apparent_temperature` and
`precipitation_probability` arrays, the call completes when the payload is
well-formed, and whenever it completes the hourly entry
at window offset `k` has `feelsLike = null` when `apparent_temperature` has no
value (`undefined`, `null` or past the end) at index `hoursStart + k` and the
value itself otherwise (`0` included), and likewise `precipitation`; neither
field is ever `undefined`. -/
theorem hourly_optional_fields (E : Engine) (forecast : Except Thrown Response) (now : String)
    (targetLocation : JSVal) (st : AppState) (response : Response) (payload : JSVal)
    (feels chances : List JSVal)
    (hf : forecast = .ok response) (hj : response.json = .ok payload)
    (hfeels : readField (readField payload "hourly") "apparent_temperature" = .arr feels)
    (hchances : readField (readField payload "hourly") "precipitation_probability"
      = .arr chances) :
    (wellFormed E payload = true → response.ok = true → nullish targetLocation = false →
      (fetchForecastForLocation E forecast now targetLocation st).1 = .ok ()) ∧
    ((fetchForecastForLocation E forecast now targetLocation st).1 = .ok () →
    (∃ start, hoursStart payload = .ok start ∧
      ∀ (k : Nat) (entry : HourlyEntry),
        (fetchForecastForLocation E forecast now targetLocation st).2.hourly[k]? = some entry →
        (nullish (feels.getD (start + k) .undefined) = true → entry.feelsLike = .null) ∧
        (nullish (feels.getD (start + k) .undefined) = false →
          entry.feelsLike = feels.getD (start + k) .undefined) ∧
        (feels[start + k]? = some (.num (.fin 0)) → entry.feelsLike = .num (.fin 0)) ∧
        entry.feelsLike ≠ .undefined ∧
        (nullish (chances.getD (start + k) .undefined) = true → entry.precipitation = .null) ∧
        (nullish (chances.getD (start + k) .undefined) = false →
          entry.precipitation = chances.getD (start + k) .undefined) ∧
        (chances[start + k]? = some (.num (.fin 0)) → entry.precipitation = .num (.fin 0)) ∧
        entry.precipitation ≠ .undefined)) := by
  refine ⟨fun hwf hstatus htarget =>
    fetchForecastForLocation_of_wellFormed now st hf hj htarget hstatus hwf, ?_⟩
  intro hok
  obtain ⟨response', payload', snapshot, daily, hourly, hf', _, hj', hnorm, hst⟩ :=
    fetchForecastForLocation_success hok
  rw [hf] at hf'
  injection hf' with hf'
  subst hf'
  rw [hj] at hj'
  injection hj' with hj'
  subst hj'
  obtain ⟨stamps, start, _, hstart, _, hentries⟩ :=
    hourlyForecast_entry (normalize_eq_ok hnorm).2.2.2
  refine ⟨start, hstart, ?_⟩
  intro k entry hentry
  rw [hst] at hentry
  obtain ⟨_, _, _, h4, h5, _⟩ := hentries k entry hentry
  rw [hfeels] at h4
  rw [hchances] at h5
  simp only [readIndex] at h4 h5
  have key : ∀ (series : List JSVal) (v : JSVal),
      v = coalesce (series.getD (start + k) .undefined) .null →
      (nullish (series.getD (start + k) .undefined) = true → v = .null) ∧
      (nullish (series.getD (start + k) .undefined) = false →
        v = series.getD (start + k) .undefined) ∧
      (series[start + k]? = some (.num (.fin 0)) → v = .num (.fin 0)) ∧
      v ≠ .undefined := by
    intro series v hv
    refine ⟨?_, ?_, ?_, ?_⟩
    · intro hn; rw [hv, coalesce, if_pos hn]
    · intro hn; rw [hv, coalesce, if_neg (by rw [hn]; decide)]
    · intro hz
      have : series.getD (start + k) .undefined = .num (.fin 0) := by
        simp [List.getD_eq_getElem?_getD, hz]
      rw [hv, this]; simp [coalesce, nullish]
    · rw [hv]
      cases hx : series.getD (start + k) .undefined <;> simp [coalesce, nullish]
  obtain ⟨a1, a2, a3, a4⟩ := key feels entry.feelsLike h4
  obtain ⟨b1, b2, b3, b4⟩ := key chances entry.precipitation h5
  exact ⟨a1, a2, a3, a4, b1, b2, b3, b4⟩

/-- C4: the call completes on a well-formed payload of a successful response,
and whenever it completes the stored snapshot takes `high`, `low`,
`precipitationChance`, `sunrise` and `sunset` from index 0 of the matching
daily sequences; any other payload with the same daily block, whatever its
current block, yields the same five values whenever its snapshot is built. -/
theorem snapshot_daily_fields (E : Engine) (forecast : Except Thrown Response) (now : String)
    (targetLocation : JSVal) (st : AppState) (response : Response) (payload : JSVal)
    (hf : forecast = .ok response) (hj : response.json = .ok payload) :
    (wellFormed E payload = true → response.ok = true → nullish targetLocation = false →
      (fetchForecastForLocation E forecast now targetLocation st).1 = .ok ()) ∧
    ((fetchForecastForLocation E forecast now targetLocation st).1 = .ok () →
    (∃ snapshot,
      (fetchForecastForLocation E forecast now targetLocation st).2.current = some snapshot ∧
      snapshot.high
        = readIndex (readField (readField payload "daily") "temperature_2m_max") 0 ∧
      snapshot.low
        = readIndex (readField (readField payload "daily") "temperature_2m_min") 0 ∧
      snapshot.precipitationChance
        = readIndex (readField (readField payload "daily") "precipitation_probability_max") 0 ∧
      snapshot.sunrise = readIndex (readField (readField payload "daily") "sunrise") 0 ∧
      snapshot.sunset = readIndex (readField (readField payload "daily") "sunset") 0 ∧
      ∀ (other : JSVal) (snapshot' : CurrentSnapshot),
        readField other "daily" = readField payload "daily" →
        currentSnapshot other = .ok snapshot' →
        snapshot'.high = snapshot.high ∧ snapshot'.low = snapshot.low ∧
        snapshot'.precipitationChance = snapshot.precipitationChance ∧
        snapshot'.sunrise = snapshot.sunrise ∧ snapshot'.sunset = snapshot.sunset)) := by
  refine ⟨fun hwf hstatus htarget =>
    fetchForecastForLocation_of_wellFormed now st hf hj htarget hstatus hwf, ?_⟩
  intro hok
  obtain ⟨response', payload', snapshot, daily, hourly, hf', _, hj', hnorm, hst⟩ :=
    fetchForecastForLocation_success hok
  rw [hf] at hf'
  injection hf' with hf'
  subst hf'
  rw [hj] at hj'
  injection hj' with hj'
  subst hj'
  obtain ⟨_, h1, h2, h3, h4, h5⟩ := currentSnapshot_eq_ok (normalize_eq_ok hnorm).2.1
  refine ⟨snapshot, by rw [hst], h1, h2, h3, h4, h5, ?_⟩
  intro other snapshot' hdaily hbuilt
  obtain ⟨_, g1, g2, g3, g4, g5⟩ := currentSnapshot_eq_ok hbuilt
  rw [hdaily] at g1 g2 g3 g4 g5
  exact ⟨g1.trans h1.symm, g2.trans h2.symm, g3.trans h3.symm, g4.trans h4.symm,
    g5.trans h5.symm⟩

/-- C5: for a payload whose daily sequences are arrays of the length of
`daily.time`, the call completes when the payload is well-formed, and whenever
it completes the stored daily list has one entry per
element of `daily.time`, in the same order: the dates of the entries are
`daily.time`, their `max`, `min`, `code` and `precipitation` are the four
sequences element by element. -/
theorem dailyForecast_order (E : Engine) (forecast : Except Thrown Response) (now : String)
    (targetLocation : JSVal) (st : AppState) (response : Response) (payload : JSVal)
    (dates maxs mins codes chances : List JSVal)
    (hf : forecast = .ok response) (hj : response.json = .ok payload)
    (hdates : readField (readField payload "daily") "time" = .arr dates)
    (hmaxs : readField (readField payload "daily") "temperature_2m_max" = .arr maxs)
    (hmins : readField (readField payload "daily") "temperature_2m_min" = .arr mins)
    (hcodes : readField (readField payload "daily") "weather_code" = .arr codes)
    (hchances : readField (readField payload "daily") "precipitation_probability_max"
      = .arr chances)
    (lmaxs : maxs.length = dates.length) (lmins : mins.length = dates.length)
    (lcodes : codes.length = dates.length) (lchances : chances.length = dates.length) :
    (wellFormed E payload = true → response.ok = true → nullish targetLocation = false →
      (fetchForecastForLocation E forecast now targetLocation st).1 = .ok ()) ∧
    ((fetchForecastForLocation E forecast now targetLocation st).1 = .ok () →
    ((fetchForecastForLocation E forecast now targetLocation st).2.daily.length = dates.length ∧
    (fetchForecastForLocation E forecast now targetLocation st).2.daily.map
      (fun entry => entry.date) = dates ∧
    (fetchForecastForLocation E forecast now targetLocation st).2.daily.map
      (fun entry => entry.max) = maxs ∧
    (fetchForecastForLocation E forecast now targetLocation st).2.daily.map
      (fun entry => entry.min) = mins ∧
    (fetchForecastForLocation E forecast now targetLocation st).2.daily.map
      (fun entry => entry.code) = codes ∧
    (fetchForecastForLocation E forecast now targetLocation st).2.daily.map
      (fun entry => entry.precipitation) = chances)) := by
  refine ⟨fun hwf hstatus htarget =>
    fetchForecastForLocation_of_wellFormed now st hf hj htarget hstatus hwf, ?_⟩
  intro hok
  obtain ⟨response', payload', snapshot, daily, hourly, hf', _, hj', hnorm, hst⟩ :=
    fetchForecastForLocation_success hok
  rw [hf] at hf'
  injection hf' with hf'
  subst hf'
  rw [hj] at hj'
  injection hj' with hj'
  subst hj'
  obtain ⟨dates', hdates', hmap⟩ := dailyForecast_eq_ok (normalize_eq_ok hnorm).2.2.1
  rw [hdates] at hdates'
  injection hdates' with hdates'
  subst hdates'
  rw [hst]
  show daily.length = dates.length ∧ daily.map (fun entry => entry.date) = dates ∧
    daily.map (fun entry => entry.max) = maxs ∧ daily.map (fun entry => entry.min) = mins ∧
    daily.map (fun entry => entry.code) = codes ∧
    daily.map (fun entry => entry.precipitation) = chances
  refine ⟨(mapFrom_eq_ok _ _ _ _ hmap).1, ?_, ?_, ?_, ?_, ?_⟩
  · apply map_of_mapFrom hmap _ dates rfl
    intro k x y hx hy
    rw [(dailyEntry_eq_ok hy).1]
    simp [List.getD_eq_getElem?_getD, hx]
  · apply map_of_mapFrom hmap _ maxs lmaxs
    intro k x y _ hy
    have := (dailyEntry_eq_ok hy).2.2.2.1
    rw [hmaxs] at this
    simpa [readIndex] using this
  · apply map_of_mapFrom hmap _ mins lmins
    intro k x y _ hy
    have := (dailyEntry_eq_ok hy).2.2.2.2.1
    rw [hmins] at this
    simpa [readIndex] using this
  · apply map_of_mapFrom hmap _ codes lcodes
    intro k x y _ hy
    have := (dailyEntry_eq_ok hy).2.2.2.2.2.1
    rw [hcodes] at this
    simpa [readIndex] using this
  · apply map_of_mapFrom hmap _ chances lchances
    intro k x y _ hy
    have := (dailyEntry_eq_ok hy).2.2.2.2.2.2
    rw [hchances] at this
    simpa [readIndex] using this

/-- C6 (as stated, refuted): the response body `null` decodes successfully and
has none of the three blocks, yet the call does not fail with the
IncompleteData error: reading `payload.current` at line 71 raises a `TypeError`
(the state bundle is still what it was). -/
theorem null_payload_not_incomplete :
    truthy (readField .null "current") = false ∧
    truthy (readField .null "daily") = false ∧
    truthy (readField .null "hourly") = false ∧
    fetchForecastForLocation plainEngine (okResponse .null) "t" DEFAULT_LOCATION shownState
      = (.error (.typeError "payload.current"), shownState) ∧
    (fetchForecastForLocation plainEngine (okResponse .null) "t" DEFAULT_LOCATION shownState).1
      ≠ .error (.error "Incomplete weather data received.") := by
  refine ⟨rfl, rfl, rfl, rfl, ?_⟩
  intro h
  have h1 : (fetchForecastForLocation plainEngine (okResponse .null) "t" DEFAULT_LOCATION
      shownState).1 = .error (.typeError "payload.current") := rfl
  rw [h1] at h
  injection h with h
  cases h

/-- C6 (amended): when the response is successful and decodes to a payload in
which `current`, `daily` or `hourly` is absent (or otherwise falsy), the call
throws and the state bundle (location, snapshot, daily list, hourly list,
last-updated stamp and every other cell) is exactly what it was; what it throws
is `Error("Incomplete weather data received.")` for every payload other than
`null`, and the `TypeError` of reading `payload.current` for `null`. -/
theorem incomplete_payload_rejected (E : Engine) (forecast : Except Thrown Response)
    (now : String) (targetLocation : JSVal) (st : AppState) (response : Response)
    (payload : JSVal)
    (htarget : nullish targetLocation = false)
    (hf : forecast = .ok response) (hstatus : response.ok = true)
    (hj : response.json = .ok payload)
    (habsent : truthy (readField payload "current") = false ∨
      truthy (readField payload "daily") = false ∨
      truthy (readField payload "hourly") = false) :
    (∃ err, (fetchForecastForLocation E forecast now targetLocation st).1 = .error err) ∧
    (fetchForecastForLocation E forecast now targetLocation st).2 = st ∧
    (nullish payload = false →
      fetchForecastForLocation E forecast now targetLocation st
        = (.error (.error "Incomplete weather data received."), st)) ∧
    (nullish payload = true →
      fetchForecastForLocation E forecast now targetLocation st
        = (.error (.typeError "payload.current"), st)) := by
  have hnot : nullish payload = false →
      fetchForecastForLocation E forecast now targetLocation st
        = (.error (.error "Incomplete weather data received."), st) := by
    intro hpayload
    have hnorm : normalize E payload
        = .error (.error "Incomplete weather data received.") := by
      unfold normalize
      rw [checkBlocks_incomplete hpayload habsent]
      rfl
    unfold fetchForecastForLocation forecastViewModels
    simp [getField_of_not_nullish _ _ htarget, hf, hstatus, hj, hnorm, bind, Except.bind, pure,
      Except.pure]
  have hnull : nullish payload = true →
      fetchForecastForLocation E forecast now targetLocation st
        = (.error (.typeError "payload.current"), st) := by
    intro hpayload
    have hnorm : normalize E payload = .error (.typeError "payload.current") := by
      simp [normalize, checkBlocks, getField, hpayload, bind, Except.bind]
    unfold fetchForecastForLocation forecastViewModels
    simp [getField_of_not_nullish _ _ htarget, hf, hstatus, hj, hnorm, bind, Except.bind, pure,
      Except.pure]
  cases hpayload : nullish payload with
  | false =>
    refine ⟨⟨_, by rw [hnot hpayload]⟩, by rw [hnot hpayload], fun _ => hnot hpayload, ?_⟩
    intro h; cases h
  | true =>
    refine ⟨⟨_, by rw [hnull hpayload]⟩, by rw [hnull hpayload], ?_, fun _ => hnull hpayload⟩
    intro h; cases h

/-- C6 (amended) on `incompleteForecast`, which has no `hourly` block, asked
for the default location while the state shows a forecast for Paris: the
IncompleteData error, and the Paris forecast still in place. -/
theorem incomplete_payload_rejected_witness :
    truthy (readField incompleteForecast "hourly") = false ∧
    fetchForecastForLocation plainEngine (okResponse incompleteForecast) "t" DEFAULT_LOCATION
        shownState
      = (.error (.error "Incomplete weather data received."), shownState) ∧
    (fetchForecastForLocation plainEngine (okResponse incompleteForecast) "t" DEFAULT_LOCATION
        shownState).2.daily = [shownDay] ∧
    (fetchForecastForLocation plainEngine (okResponse incompleteForecast) "t" DEFAULT_LOCATION
        shownState).2.lastUpdated = "2024-04-30T12:00:05.000Z" :=
  have key := incomplete_payload_rejected plainEngine (okResponse incompleteForecast) "t"
    DEFAULT_LOCATION shownState { ok := true, json := .ok incompleteForecast }
    incompleteForecast rfl rfl rfl rfl (Or.inr (Or.inr rfl))
  ⟨rfl, key.2.2.1 rfl, (congrArg AppState.daily key.2.1).trans rfl,
    (congrArg AppState.lastUpdated key.2.1).trans rfl⟩

/-- C3 on `sampleForecast`: the entry of the hour 03:00 (window offset 2, index
3) has neither value and gets `null` twice. -/
theorem hourly_optional_fields_witness :
    (fetchForecastForLocation plainEngine (okResponse sampleForecast) "t" DEFAULT_LOCATION
      initialState).1 = .ok () ∧
    ∃ entry, (fetchForecastForLocation plainEngine (okResponse sampleForecast) "t"
        DEFAULT_LOCATION initialState).2.hourly[2]? = some entry ∧
      entry.feelsLike = .null ∧ entry.precipitation = .null := by
  have key := hourly_optional_fields plainEngine (okResponse sampleForecast)
    "t" DEFAULT_LOCATION initialState { ok := true, json := .ok sampleForecast } sampleForecast
    [.num (.fin 18), .num (.fin 17), .num (.fin 0), .null]
    [.num (.fin 5), .num (.fin 10), .num (.fin 0)] rfl rfl rfl rfl
  have hok := key.1 rfl rfl rfl
  obtain ⟨start, hstart, h⟩ := key.2 hok
  have h1 : hoursStart sampleForecast = .ok 1 := rfl
  rw [h1] at hstart
  injection hstart with hstart
  subst hstart
  let entry : HourlyEntry :=
    { time := .str "2024-05-01T03:00", hourLabel := "hour", temperature := .num (.fin 16),
      feelsLike := .null, precipitation := .null, code := .num (.fin 1) }
  obtain ⟨a1, _, _, _, b1, _⟩ := h 2 entry rfl
  exact ⟨hok, entry, rfl, a1 rfl, b1 rfl⟩

/-- C4 on `sampleForecast`: the snapshot carries the values of the first day. -/
theorem snapshot_daily_fields_witness :
    (fetchForecastForLocation plainEngine (okResponse sampleForecast) "t" DEFAULT_LOCATION
      initialState).1 = .ok () ∧
    ∃ snapshot, (fetchForecastForLocation plainEngine (okResponse sampleForecast) "t"
        DEFAULT_LOCATION initialState).2.current = some snapshot ∧
      snapshot.high = .num (.fin 25) ∧ snapshot.low = .num (.fin 11) ∧
      snapshot.precipitationChance = .num (.fin 0) ∧
      snapshot.sunrise = .str "2024-05-01T05:51" ∧ snapshot.sunset = .str "2024-05-01T19:54" := by
  have key := snapshot_daily_fields plainEngine (okResponse sampleForecast) "t"
    DEFAULT_LOCATION initialState { ok := true, json := .ok sampleForecast } sampleForecast
    rfl rfl
  have hok := key.1 rfl rfl rfl
  obtain ⟨snapshot, hs, h1, h2, h3, h4, h5, _⟩ := key.2 hok
  exact ⟨hok, snapshot, hs, h1.trans rfl, h2.trans rfl, h3.trans rfl, h4.trans rfl,
    h5.trans rfl⟩

/-- C5 on `sampleForecast`: two days in, two entries out, in the same order. -/
theorem dailyForecast_order_witness :
    (fetchForecastForLocation plainEngine (okResponse sampleForecast) "t" DEFAULT_LOCATION
      initialState).1 = .ok () ∧
    (fetchForecastForLocation plainEngine (okResponse sampleForecast) "t" DEFAULT_LOCATION
      initialState).2.daily.length = 2 ∧
    (fetchForecastForLocation plainEngine (okResponse sampleForecast) "t" DEFAULT_LOCATION
      initialState).2.daily.map (fun entry => entry.date)
      = [.str "2024-05-01", .str "2024-05-02"] ∧
    (fetchForecastForLocation plainEngine (okResponse sampleForecast) "t" DEFAULT_LOCATION
      initialState).2.daily.map (fun entry => entry.max) = [.num (.fin 25), .num (.fin 24)] := by
  have key := dailyForecast_order plainEngine (okResponse sampleForecast) "t"
    DEFAULT_LOCATION initialState { ok := true, json := .ok sampleForecast } sampleForecast
    [.str "2024-05-01", .str "2024-05-02"] [.num (.fin 25), .num (.fin 24)]
    [.num (.fin 11), .num (.fin 12)] [.num (.fin 3), .num (.fin 61)]
    [.num (.fin 0), .num (.fin 80)] rfl rfl rfl rfl rfl rfl rfl rfl rfl rfl rfl
  have hok := key.1 rfl rfl rfl
  obtain ⟨h0, h1, h2, _⟩ := key.2 hok
  exact ⟨hok, h0, h1, h2⟩

/-! ## Condition lookup and the formatting helpers -/

theorem lookupCode_none (code : Int) (table : List (Int × WeatherInfo))
    (h : code ∉ table.map Prod.fst) : lookupCode code table = none := by
  induction table with
  | nil => rfl
  | cons entry rest ih =>
    obtain ⟨k, info⟩ := entry
    simp only [List.map_cons, List.mem_cons, not_or] at h
    have hk : ¬ k = code := fun e => h.1 e.symm
    simp [lookupCode, hk, ih h.2]

/-- C7: `getWeatherInfo` returns a descriptor for every integer; the table has
28 entries with distinct codes, each code yields its own descriptor, and every
integer outside the table yields `DEFAULT_INFO`, whose label is `"Unknown"` and
whose variant is `"default"`. -/
theorem getWeatherInfo_total :
    WEATHER_CODE_MAP.length = 28 ∧
    (WEATHER_CODE_MAP.map Prod.fst).Nodup ∧
    (∀ entry ∈ WEATHER_CODE_MAP, getWeatherInfo entry.1 = entry.2) ∧
    (∀ code : Int, code ∉ WEATHER_CODE_MAP.map Prod.fst → getWeatherInfo code = DEFAULT_INFO) ∧
    DEFAULT_INFO.label = "Unknown" ∧ DEFAULT_INFO.variant = "default" := by
  refine ⟨by decide, by decide, by decide, ?_, rfl, rfl⟩
  intro code h
  simp [getWeatherInfo, lookupCode_none code _ h]

/-- C7 at code 4 (not in the table) and code 95 (in it). -/
theorem getWeatherInfo_total_witness :
    (4 : Int) ∉ WEATHER_CODE_MAP.map Prod.fst ∧ getWeatherInfo 4 = DEFAULT_INFO ∧
    (getWeatherInfo 95).label = "Thunderstorm" :=
  ⟨by decide, getWeatherInfo_total.2.2.2.1 4 (by decide),
    congrArg WeatherInfo.label (getWeatherInfo_total.2.2.1 (95, getWeatherInfo 95) (by decide))⟩

theorem mathRound_fin (q : ℚ) : mathRound (.fin q) = .fin ((round q : ℤ) : ℚ) := by
  simp only [mathRound, round_eq]
  rfl

theorem numberToString_intCast (E : Engine) (n : ℤ) :
    numberToString E (.fin (n : ℚ))
      = if n.natAbs < 2 ^ 53 then toString n
        else if n.natAbs < 10 ^ 21 then (if n < 0 then "-" else "") ++ shortestDigits n.natAbs
        else E.numberText (n : ℚ) := by
  simp [numberToString]

theorem formatTemperature_fin (E : Engine) (q : ℚ) :
    formatTemperature E (.num (.fin q))
      = numberToString E (.fin ((round q : ℤ) : ℚ)) ++ "°" := by
  simp [formatTemperature, mathRound_fin]

/-- C8 (as stated, refuted): `Infinity` is a number other than `NaN` and the
result `"Infinity°"` carries no integer; `2^57 = 144115188075855872` is its own
nearest integer and the result is `"144115188075855870°"`, the digits
`Number::toString` prints for it, not the digits of that integer. -/
theorem formatTemperature_not_nearest_integer :
    formatTemperature plainEngine (.num .posInf) = "Infinity°" ∧
    round (144115188075855872 : ℚ) = 144115188075855872 ∧
    formatTemperature plainEngine (.num (.fin 144115188075855872)) = "144115188075855870°" ∧
    formatTemperature plainEngine (.num (.fin 144115188075855872))
      ≠ toString (144115188075855872 : ℤ) ++ "°" := by
  have hr : round (144115188075855872 : ℚ) = 144115188075855872 := by
    rw [round_eq, Int.floor_eq_iff]; norm_num
  have hbig : formatTemperature plainEngine (.num (.fin 144115188075855872))
      = "144115188075855870°" := by
    rw [formatTemperature_fin, hr, numberToString_intCast]
    decide
  refine ⟨rfl, hr, hbig, ?_⟩
  rw [hbig]
  decide

/-- C8 (amended): `formatTemperature` is total. On a finite number whose
nearest integer (a tie going up, as `Math.round` does) is below `2^53` in
magnitude it returns the decimal digits of that integer followed by the degree
mark, so `21.6` gives `"22°"`; on every number other than `NaN` it returns
`ToString(Math.round(value))` followed by the degree mark, which is
`"Infinity°"` and `"-Infinity°"` for the infinities and `"144115188075855870°"`
for `2^57`; on every other input (`undefined`, `null`, `NaN`, a string, a
boolean, an array, an object) it returns `"--"`. -/
theorem formatTemperature_spec (E : Engine) :
    (∀ q : ℚ, (round q).natAbs < 2 ^ 53 →
      formatTemperature E (.num (.fin q)) = toString (round q) ++ "°") ∧
    (∀ q : ℚ, |q - round q| ≤ 1 / 2) ∧
    (∀ n : JSNum, n ≠ .nan →
      formatTemperature E (.num n) = numberToString E (mathRound n) ++ "°") ∧
    formatTemperature E (.num (.fin 21.6)) = "22°" ∧
    formatTemperature E (.num .posInf) = "Infinity°" ∧
    formatTemperature E (.num .negInf) = "-Infinity°" ∧
    formatTemperature E (.num (.fin 144115188075855872)) = "144115188075855870°" ∧
    (∀ v : JSVal, (∀ n, v = .num n → n = .nan) → formatTemperature E v = "--") := by
  have hfin : ∀ q : ℚ, (round q).natAbs < 2 ^ 53 →
      formatTemperature E (.num (.fin q)) = toString (round q) ++ "°" := by
    intro q h
    rw [formatTemperature_fin, numberToString_intCast, if_pos h]
  refine ⟨hfin, fun q => abs_sub_round q, ?_, ?_, rfl, rfl, ?_, ?_⟩
  · intro n hn
    simp [formatTemperature, hn]
  · have hr : round (21.6 : ℚ) = 22 := by
      rw [round_eq, Int.floor_eq_iff]; norm_num
    rw [hfin 21.6 (by rw [hr]; decide), hr]
    decide
  · have hr : round (144115188075855872 : ℚ) = 144115188075855872 := by
      rw [round_eq, Int.floor_eq_iff]; norm_num
    rw [formatTemperature_fin, hr, numberToString_intCast, if_neg (by decide),
      if_pos (by decide)]
    decide
  · intro v hv
    cases v with
    | num n =>
      have := hv n rfl
      subst this
      rfl
    | _ => rfl

/-- C8 (amended) at `2.5` (a tie, rounded up) and at `undefined`. -/
theorem formatTemperature_spec_witness :
    (round (2.5 : ℚ)).natAbs < 2 ^ 53 ∧
    formatTemperature plainEngine (.num (.fin 2.5)) = "3°" ∧
    formatTemperature plainEngine .undefined = "--" := by
  have hr : round (2.5 : ℚ) = 3 := by
    rw [round_eq, Int.floor_eq_iff]; norm_num
  have hsmall : (round (2.5 : ℚ)).natAbs < 2 ^ 53 := by rw [hr]; decide
  refine ⟨hsmall, ?_, (formatTemperature_spec plainEngine).2.2.2.2.2.2.2 .undefined
    (fun n h => by cases h)⟩
  rw [(formatTemperature_spec plainEngine).1 2.5 hsmall, hr]
  decide

/-! ## Location labels and the reverse lookup -/

theorem truthy_part {v : JSVal} {s : String} (h : partText v = some s) :
    truthy v = decide (s ≠ "") := by
  cases v <;> simp_all [partText, truthy]

theorem joinItems_parts (E : Engine) :
    ∀ (parts : List JSVal) (texts : List String),
      List.Forall₂ (fun v s => partText v = some s) parts texts →
      joinItems E (parts.filter truthy) = texts.filter (fun s => decide (s ≠ ""))
  | [], _, h => by cases h; rfl
  | v :: rest, _, h => by
    cases h with
    | cons hv hrest =>
      rename_i s texts
      have ih := joinItems_parts E rest texts hrest
      have ht := truthy_part hv
      by_cases hs : s = ""
      · have hf : truthy v = false := by rw [ht]; simp [hs]
        simp [List.filter_cons, hf, hs, ih]
      · have htrue : truthy v = true := by rw [ht]; simp [hs]
        have hstr : v = .str s := by
          cases v <;> simp_all [partText]
        subst hstr
        simp [List.filter_cons, htrue, hs, joinItems, nullish, jsToString, ih]

/-- C9: for a location record (an object), `buildLocationLabel` returns the
label unchanged when it is non-empty (more generally, truthy); otherwise, the
parts `name`, `admin1`, `country` being strings or absent, it returns the
non-empty ones, in that order, joined with `", "`. -/
theorem buildLocationLabel_spec (E : Engine) (fields : List (String × JSVal)) :
    (∀ label : String, readField (.obj fields) "label" = .str label → label ≠ "" →
      buildLocationLabel E (.obj fields) = .str label) ∧
    (truthy (readField (.obj fields) "label") = true →
      buildLocationLabel E (.obj fields) = readField (.obj fields) "label") ∧
    (∀ name admin1 country : String,
      truthy (readField (.obj fields) "label") = false →
      partText (readField (.obj fields) "name") = some name →
      partText (readField (.obj fields) "admin1") = some admin1 →
      partText (readField (.obj fields) "country") = some country →
      buildLocationLabel E (.obj fields)
        = .str (", ".intercalate ([name, admin1, country].filter (fun s => decide (s ≠ ""))))) := by
  refine ⟨?_, ?_, ?_⟩
  · intro label hl hne
    have ht : truthy (readField (.obj fields) "label") = true := by
      rw [hl]; simp [truthy, hne]
    unfold buildLocationLabel
    rw [show truthy (JSVal.obj fields) = true from rfl]
    rw [hl] at ht ⊢
    simp only [ht, Bool.not_true, Bool.false_eq_true, if_false, if_true]
  · intro hl
    unfold buildLocationLabel
    rw [show truthy (JSVal.obj fields) = true from rfl]
    simp [hl]
  · intro name admin1 country hl hn ha hc
    have hjoin := joinItems_parts E
      [readField (.obj fields) "name", readField (.obj fields) "admin1",
        readField (.obj fields) "country"] [name, admin1, country]
      (.cons hn (.cons ha (.cons hc .nil)))
    unfold buildLocationLabel
    rw [show truthy (JSVal.obj fields) = true from rfl]
    simp [hl, arrayJoin, hjoin]

/-- C9 on the record `{name: "Paris", admin1: "", country: "France"}` and on
the default location, whose label is supplied. -/
theorem buildLocationLabel_spec_witness :
    buildLocationLabel plainEngine
        (.obj [("name", .str "Paris"), ("admin1", .str ""), ("country", .str "France")])
      = .str "Paris, France" ∧
    buildLocationLabel plainEngine DEFAULT_LOCATION = .str "New York, United States" :=
  ⟨((buildLocationLabel_spec plainEngine
      [("name", .str "Paris"), ("admin1", .str ""), ("country", .str "France")]).2.2
      "Paris" "" "France" rfl rfl rfl rfl).trans (by rfl),
    (buildLocationLabel_spec plainEngine _).1 "New York, United States" rfl (by decide)⟩

/-- C10: when the reverse-geocoding request fails (the fetch rejects, the
response is not `ok`, or decoding rejects), the location handed to
`fetchForecastForLocation` is `{name: "Current location", country: "",
admin1: "", label: "Current location", latitude, longitude}` with the device
coordinates; the handler ends exactly as the forecast step for that location
leaves it: with no error message, that location and the query
`"Current location"` when the forecast step succeeds, and otherwise with the
message of what the forecast step threw. -/
theorem reverse_failure_falls_back (E : Engine) (latitude longitude : JSNum)
    (reverse forecast : Except Thrown Response) (now : String) (st : AppState)
    (hfail : (∃ err, reverse = .error err) ∨
      (∃ response, reverse = .ok response ∧
        (response.ok = false ∨ ∃ err, response.json = .error err))) :
    namedLocation E latitude longitude reverse
      = .obj [("name", .str "Current location"), ("country", .str ""), ("admin1", .str ""),
          ("label", .str "Current location"), ("latitude", .num latitude),
          ("longitude", .num longitude)] ∧
    handleUseMyLocation E true (.position latitude longitude) reverse forecast now st
      = (match fetchForecastForLocation E forecast now
            (.obj [("name", .str "Current location"), ("country", .str ""),
              ("admin1", .str ""), ("label", .str "Current location"),
              ("latitude", .num latitude), ("longitude", .num longitude)])
            { st with error := "", loading := true } with
          | (.ok _, st1) => { st1 with query := .str "Current location", loading := false }
          | (.error err, st1) =>
            { st1 with
                error := caughtMessage E "We couldn't fetch weather for your location." err,
                loading := false }) ∧
    ((fetchForecastForLocation E forecast now
        (.obj [("name", .str "Current location"), ("country", .str ""),
          ("admin1", .str ""), ("label", .str "Current location"),
          ("latitude", .num latitude), ("longitude", .num longitude)])
        { st with error := "", loading := true }).1 = .ok () →
      (handleUseMyLocation E true (.position latitude longitude) reverse forecast now st).error
        = "" ∧
      (handleUseMyLocation E true (.position latitude longitude) reverse forecast now
          st).location
        = .obj [("name", .str "Current location"), ("country", .str ""), ("admin1", .str ""),
            ("label", .str "Current location"), ("latitude", .num latitude),
            ("longitude", .num longitude)] ∧
      (handleUseMyLocation E true (.position latitude longitude) reverse forecast now
          st).loading = false) := by
  have hnamed : namedLocation E latitude longitude reverse
      = .obj [("name", .str "Current location"), ("country", .str ""), ("admin1", .str ""),
          ("label", .str "Current location"), ("latitude", .num latitude),
          ("longitude", .num longitude)] := by
    rcases hfail with ⟨err, rfl⟩ | ⟨response, rfl, hno | ⟨err, herr⟩⟩
    · rfl
    · simp [namedLocation, hno, currentLocation]
    · cases hok : response.ok <;> simp [namedLocation, hok, herr, currentLocation]
  have hrun : handleUseMyLocation E true (.position latitude longitude) reverse forecast now st
      = (match fetchForecastForLocation E forecast now
            (.obj [("name", .str "Current location"), ("country", .str ""),
              ("admin1", .str ""), ("label", .str "Current location"),
              ("latitude", .num latitude), ("longitude", .num longitude)])
            { st with error := "", loading := true } with
          | (.ok _, st1) => { st1 with query := .str "Current location", loading := false }
          | (.error err, st1) =>
            { st1 with
                error := caughtMessage E "We couldn't fetch weather for your location." err,
                loading := false }) := by
    simp only [handleUseMyLocation, onPosition, hnamed, Bool.not_true, Bool.false_eq_true,
      if_false]
    rfl
  refine ⟨hnamed, hrun, ?_⟩
  intro hok
  obtain ⟨response, payload, snapshot, daily, hourly, _, _, _, _, hst⟩ :=
    fetchForecastForLocation_success hok
  rw [hrun]
  have hpair : fetchForecastForLocation E forecast now
        (.obj [("name", .str "Current location"), ("country", .str ""),
          ("admin1", .str ""), ("label", .str "Current location"),
          ("latitude", .num latitude), ("longitude", .num longitude)])
        { st with error := "", loading := true } = (.ok (), _) := Prod.ext hok rfl
  rw [hpair]
  simp [hst]

/-- C10 at the coordinates (48.85, 2.35) with a rejected reverse request and a
forecast answer carrying `sampleForecast`: no error message, the fallback
location. -/
theorem reverse_failure_falls_back_witness :
    (handleUseMyLocation plainEngine true (.position (.fin 48.85) (.fin 2.35))
      (.error (.error "Failed to fetch")) (okResponse sampleForecast) "t" initialState).error
      = "" ∧
    (handleUseMyLocation plainEngine true (.position (.fin 48.85) (.fin 2.35))
      (.error (.error "Failed to fetch")) (okResponse sampleForecast) "t" initialState).location
      = .obj [("name", .str "Current location"), ("country", .str ""), ("admin1", .str ""),
          ("label", .str "Current location"), ("latitude", .num (.fin 48.85)),
          ("longitude", .num (.fin 2.35))] :=
  let h := (reverse_failure_falls_back plainEngine (.fin 48.85) (.fin 2.35)
    (.error (.error "Failed to fetch")) (okResponse sampleForecast) "t" initialState
    (Or.inl ⟨_, rfl⟩)).2.2 rfl
  ⟨h.1, h.2.1⟩

/-! ## The forward lookup without a match -/

theorem searchLocation_no_match (E : Engine) {geo : Except Thrown Response}
    {response : Response} {geoData : JSVal}
    (hgeo : geo = .ok response) (hstatus : response.ok = true)
    (hj : response.json = .ok geoData) (hdata : nullish geoData = false)
    (hempty : truthy (readField geoData "results") = false ∨
      readField geoData "results" = .arr []) :
    searchLocation E geo
      = .error (.error "We couldn't find that location. Try another search.") := by
  have hcond : (!truthy (readField geoData "results") ||
      strictEq (readLength (readField geoData "results")) (.num (.fin 0))) = true := by
    rcases hempty with h | h
    · simp [h]
    · rw [h]
      simp [readLength, strictEq, truthy]
  unfold searchLocation
  simp only [hgeo, hstatus, hj, getField_of_not_nullish _ _ hdata, bind, Except.bind,
    Bool.not_true, Bool.false_eq_true, if_false, hcond, if_true, pure, Except.pure]

theorem searchLocation_null (E : Engine) {geo : Except Thrown Response}
    {response : Response} {geoData : JSVal}
    (hgeo : geo = .ok response) (hstatus : response.ok = true)
    (hj : response.json = .ok geoData) (hdata : nullish geoData = true) :
    searchLocation E geo = .error (.typeError "geoData.results") := by
  unfold searchLocation
  simp [hgeo, hstatus, hj, getField, hdata, bind, Except.bind, pure, Except.pure]

theorem searchLocation_found {E : Engine} {geo : Except Thrown Response} {best next : JSVal}
    (h : searchLocation E geo = .ok (best, next)) :
    forecastRequests next
      = [.forecast (readField best "latitude") (readField best "longitude")] := by
  unfold searchLocation at h
  cases geo with
  | error e => simp [bind, Except.bind] at h
  | ok geoResponse =>
    cases hok : geoResponse.ok with
    | false => simp [hok, bind, Except.bind, throw, throwThe, MonadExceptOf.throw] at h
    | true =>
      cases hjson : geoResponse.json with
      | error e => simp [hok, hjson, bind, Except.bind, pure, Except.pure] at h
      | ok geoData =>
        cases hres : getField "geoData.results" geoData "results" with
        | error e => simp [hok, hjson, hres, bind, Except.bind, pure, Except.pure] at h
        | ok results =>
          cases hcond : (!truthy results ||
              strictEq (readLength results) (.num (.fin 0))) with
          | true =>
            simp [hok, hjson, hres, hcond, bind, Except.bind, pure, Except.pure, throw,
              throwThe, MonadExceptOf.throw] at h
          | false =>
            cases hname : getField "match.name" (readIndex results 0) "name" with
            | error e =>
              simp [hok, hjson, hres, hcond, hname, bind, Except.bind, pure, Except.pure] at h
            | ok name =>
              simp only [hok, hjson, hres, hcond, hname, bind, Except.bind, pure, Except.pure,
                Bool.not_true, Bool.false_eq_true, if_false, Except.ok.injEq,
                Prod.mk.injEq] at h
              obtain ⟨hbest, hnext⟩ := h
              subst hbest
              subst hnext
              rfl

/-- C11 (as stated, refuted): the response body `null` is a successful answer
without a result set, yet the lookup does not fail with the NoMatch error:
reading `geoData.results` at line 183 raises a `TypeError`, and the error
stored is the engine's text for it. -/
theorem null_results_not_no_match :
    trim "Zzqqxx" ≠ "" ∧
    truthy (readField .null "results") = false ∧
    searchLocation plainEngine (okResponse .null) = .error (.typeError "geoData.results") ∧
    (handleSearch plainEngine "Zzqqxx" (okResponse .null) (okResponse sampleForecast) "t"
      shownState).1.error = plainEngine.engineMessage (.typeError "geoData.results") ∧
    (handleSearch plainEngine "Zzqqxx" (okResponse .null) (okResponse sampleForecast) "t"
      shownState).1.error ≠ "We couldn't find that location. Try another search." := by
  refine ⟨by decide, rfl, rfl, rfl, ?_⟩
  have h : (handleSearch plainEngine "Zzqqxx" (okResponse .null) (okResponse sampleForecast)
      "t" shownState).1.error = "engine error" := rfl
  rw [h]
  decide

/-- C11 (amended): for a non-blank search term whose geocoding response is
successful and decodes to data whose `results` is absent (or otherwise falsy)
or an empty array, `handleSearch` issues the geocoding request and no other
one (no forecast request), clears `loading`, stores an error message and
leaves the query, the location, the snapshot, the daily list, the hourly list
and the last-updated stamp as they were; the message is the NoMatch text
`"We couldn't find that location. Try another search."` for every decoded
value other than `null`, and the engine's `TypeError` text for `null`. When
the lookup does find a match, the forecast request follows the geocoding
one. -/
theorem empty_results_no_match (E : Engine) (searchTerm : String)
    (geo forecast : Except Thrown Response) (now : String) (st : AppState)
    (response : Response) (geoData : JSVal)
    (hterm : trim searchTerm ≠ "")
    (hgeo : geo = .ok response) (hstatus : response.ok = true)
    (hj : response.json = .ok geoData)
    (hempty : truthy (readField geoData "results") = false ∨
      readField geoData "results" = .arr []) :
    (handleSearch E searchTerm geo forecast now st).2 = [.search (trim searchTerm)] ∧
    (∀ latitude longitude : JSVal,
      Request.forecast latitude longitude ∉ (handleSearch E searchTerm geo forecast now st).2) ∧
    (nullish geoData = false →
      searchLocation E geo
        = .error (.error "We couldn't find that location. Try another search.") ∧
      (handleSearch E searchTerm geo forecast now st).1
        = { st with error := "We couldn't find that location. Try another search.",
                    loading := false }) ∧
    (nullish geoData = true →
      (handleSearch E searchTerm geo forecast now st).1
        = { st with error := E.engineMessage (.typeError "geoData.results"),
                    loading := false }) ∧
    (handleSearch E searchTerm geo forecast now st).1.loading = false ∧
    (handleSearch E searchTerm geo forecast now st).1.query = st.query ∧
    (handleSearch E searchTerm geo forecast now st).1.location = st.location ∧
    (handleSearch E searchTerm geo forecast now st).1.current = st.current ∧
    (handleSearch E searchTerm geo forecast now st).1.daily = st.daily ∧
    (handleSearch E searchTerm geo forecast now st).1.hourly = st.hourly ∧
    (handleSearch E searchTerm geo forecast now st).1.lastUpdated = st.lastUpdated ∧
    (∀ (geo' : Except Thrown Response) (best next : JSVal),
      searchLocation E geo' = .ok (best, next) →
      (handleSearch E searchTerm geo' forecast now st).2
        = [.search (trim searchTerm),
            .forecast (readField best "latitude") (readField best "longitude")]) := by
  have hrun : ∀ err, searchLocation E geo = .error err →
      handleSearch E searchTerm geo forecast now st
        = ({ st with error := caughtMessage E "Something went wrong while searching." err,
                     loading := false }, [.search (trim searchTerm)]) := by
    intro err herr
    unfold handleSearch
    rw [if_neg hterm]
    simp only [herr]
  have hfound : ∀ (geo' : Except Thrown Response) (best next : JSVal),
      searchLocation E geo' = .ok (best, next) →
      (handleSearch E searchTerm geo' forecast now st).2
        = [.search (trim searchTerm),
            .forecast (readField best "latitude") (readField best "longitude")] := by
    intro geo' best next hok
    unfold handleSearch
    rw [if_neg hterm]
    simp only [hok]
    rw [searchLocation_found hok]
    cases hfetch : fetchForecastForLocation E forecast now next
        { st with error := "", loading := true } with
    | mk outcome st2 =>
      cases outcome <;> rfl
  cases hdata : nullish geoData with
  | false =>
    have hthrow := searchLocation_no_match E hgeo hstatus hj hdata hempty
    have h := hrun _ hthrow
    refine ⟨by rw [h], ?_, fun _ => ⟨hthrow, by rw [h]; rfl⟩, ?_, by rw [h], by rw [h],
      by rw [h], by rw [h], by rw [h], by rw [h], by rw [h], hfound⟩
    · intro latitude longitude hmem
      rw [h] at hmem
      simp at hmem
    · intro hn; cases hn
  | true =>
    have hthrow := searchLocation_null E hgeo hstatus hj hdata
    have h := hrun _ hthrow
    refine ⟨by rw [h], ?_, ?_, fun _ => by rw [h]; rfl, by rw [h], by rw [h],
      by rw [h], by rw [h], by rw [h], by rw [h], by rw [h], hfound⟩
    · intro latitude longitude hmem
      rw [h] at hmem
      simp at hmem
    · intro hn; cases hn

/-- C11 (amended) on the search term `"Zzqqxx"` with an answer whose `results`
is the empty array while the state shows a forecast for Paris: one request,
the geocoding one; the NoMatch message; the Paris forecast still in place. -/
theorem empty_results_no_match_witness :
    trim "Zzqqxx" ≠ "" ∧
    (handleSearch plainEngine "Zzqqxx" (okResponse (.obj [("results", .arr [])]))
      (okResponse sampleForecast) "t" shownState).2 = [.search "Zzqqxx"] ∧
    (handleSearch plainEngine "Zzqqxx" (okResponse (.obj [("results", .arr [])]))
      (okResponse sampleForecast) "t" shownState).1
      = { shownState with error := "We couldn't find that location. Try another search.",
                          loading := false } ∧
    (handleSearch plainEngine "Zzqqxx" (okResponse (.obj [("results", .arr [])]))
      (okResponse sampleForecast) "t" shownState).1.daily = [shownDay] :=
  have hterm : trim "Zzqqxx" ≠ "" := by decide
  have key := empty_results_no_match plainEngine "Zzqqxx"
    (okResponse (.obj [("results", .arr [])])) (okResponse sampleForecast) "t" shownState
    { ok := true, json := .ok (.obj [("results", .arr [])]) } (.obj [("results", .arr [])])
    hterm rfl rfl rfl (Or.inr rfl)
  ⟨hterm, key.1.trans rfl, (key.2.2.1 rfl).2, key.2.2.2.2.2.2.2.2.1.trans rfl⟩

end WeatherApp
